import Mathlib

set_option maxRecDepth 8000

/-!
# Verification of the nova-ai script normalization-and-execution pipeline

Shallow embedding of `script_runner.py` (normalizer pipeline, interpreter
dispatch, fallback scanner), `hwp_controller.py` (composition engine /
document-target state machine) and `equation.py` (equation notation bridge),
with theorems settling the frozen claims C1..C10.

Strings are modelled as `List Char`.  Python regular expressions used by the
source are translated into explicit character scanners following the exact
pattern semantics (leftmost match, non-greedy where the source is non-greedy,
word boundaries, case-insensitive flags).  Python `\s` is modelled by the
ASCII whitespace set, which covers every character occurring in the scripts
this pipeline processes.
-/

/-! ## Python string helpers -/

abbrev Chars := List Char

/-- Characters stripped by Python `str.strip()` (ASCII whitespace set). -/
def isPySpace (c : Char) : Bool :=
  c = ' ' || c = '\t' || c = '\n' || c = '\r' || c = '\x0b' || c = '\x0c'

def chs (s : String) : Chars := s.data

def pyLStrip (s : Chars) : Chars := s.dropWhile isPySpace

def pyRStrip (s : Chars) : Chars := (s.reverse.dropWhile isPySpace).reverse

def pyStrip (s : Chars) : Chars := pyRStrip (pyLStrip s)

/-- Python `s.split("\n")` (note: `"".split("\n") == [""]`). -/
def splitNL : Chars → List Chars
  | [] => [[]]
  | c :: rest =>
    if c = '\n' then [] :: splitNL rest
    else
      match splitNL rest with
      | [] => [[c]]
      | l :: ls => (c :: l) :: ls

/-- Python `"\n".join(lines)`. -/
def joinNL : List Chars → Chars
  | [] => []
  | [l] => l
  | l :: ls => l ++ '\n' :: joinNL ls

/-- Python `sep.join(parts)`. -/
def joinWith (sep : Chars) : List Chars → Chars
  | [] => []
  | [l] => l
  | l :: ls => l ++ sep ++ joinWith sep ls

/-- Python `needle in hay` (substring containment). -/
def hasSub (needle : Chars) : Chars → Bool
  | [] => needle.isEmpty
  | s@(_ :: rest) => needle.isPrefixOf s || hasSub needle rest

/-- Python `s.endswith(t)`. -/
def endsWith (t s : Chars) : Bool := t.reverse.isPrefixOf s.reverse

/-- Count characters equal to `q` that are not preceded by an unconsumed
backslash, mirroring `_count_unescaped` in `_repair_multiline_calls`. -/
def countUnescaped (q : Char) : Chars → Bool → Nat
  | [], _ => 0
  | c :: rest, esc =>
    if esc then countUnescaped q rest false
    else if c = '\\' then countUnescaped q rest true
    else if c = q then countUnescaped q rest false + 1
    else countUnescaped q rest false

def lbrace : Char := Char.ofNat 123
def rbrace : Char := Char.ofNat 125

def isAsciiLetter (c : Char) : Bool :=
  ('a' ≤ c && c ≤ 'z') || ('A' ≤ c && c ≤ 'Z')

def isWordChar (c : Char) : Bool :=
  isAsciiLetter c || ('0' ≤ c && c ≤ '9') || c = '_'

/-- Python `str.replace(needle, repl)` — every non-overlapping occurrence,
left to right (fueled: one source character is consumed per step). -/
def replaceSubGo (needle repl : Chars) : Nat → Chars → Chars
  | _, [] => []
  | 0, s => s
  | fuel + 1, s@(c :: rest) =>
    if !needle.isEmpty && needle.isPrefixOf s then
      repl ++ replaceSubGo needle repl fuel (s.drop needle.length)
    else c :: replaceSubGo needle repl fuel rest

def replaceSub (needle repl s : Chars) : Chars := replaceSubGo needle repl s.length s

/-- Longest common prefix of two character lists. -/
def commonPrefix : Chars → Chars → Chars
  | a :: as, b :: bs => if a = b then a :: commonPrefix as bs else []
  | _, _ => []

/-! ## `textwrap.dedent`

CPython's `dedent`: whitespace-only lines (spaces/tabs) are blanked, the
longest common leading space/tab run of the remaining non-blank lines is the
margin, and that margin is removed from the front of every line carrying it. -/

def isDedentWs (c : Char) : Bool := c = ' ' || c = '\t'

def dedentPy (s : Chars) : Chars :=
  let lines := splitNL s
  let lines := lines.map (fun l => if !l.isEmpty && l.all isDedentWs then [] else l)
  let indents := lines.filterMap (fun l =>
    if l.any (fun c => !isDedentWs c) then some (l.takeWhile isDedentWs) else none)
  let margin := match indents with
    | [] => ([] : Chars)
    | i :: is => is.foldl commonPrefix i
  let lines := if margin.isEmpty then lines else
    lines.map (fun l => if margin.isPrefixOf l then l.drop margin.length else l)
  joinNL lines

/-! ## ScriptRunner.run — head of the pipeline (lines 1199-1212) -/

/-- Line-separator canonicalization (run, lines 1201-1206). -/
def crlfNormalize (s : Chars) : Chars :=
  let s := replaceSub (chs "\r\n") (chs "\n") s
  let s := replaceSub (chs "\r") (chs "\n") s
  let s := replaceSub (chs "\u2028") (chs "\n") s
  replaceSub (chs "\u2029") (chs "\n") s

def backtick : Char := Char.ofNat 96

/-- Code-fence stripping (run, lines 1207-1211). -/
def stripCodeFence (s : Chars) : Chars :=
  if ([backtick, backtick, backtick] : Chars).isPrefixOf s then
    let lines := (splitNL s).drop 1
    let lines :=
      if !lines.isEmpty && pyStrip (lines.getLast!) = [backtick, backtick, backtick] then
        lines.dropLast
      else lines
    pyStrip (joinNL lines)
  else s

/-- `_strip_code_markers` (lines 278-286). -/
def strip_code_markers (s : Chars) : Chars :=
  joinNL ((splitNL s).filter (fun l =>
    let st := pyStrip l
    !(st = chs "[CODE]" || st = chs "[/CODE]" || st = chs "CODE")))

/-! ## `_sanitize_multiline_strings` (lines 250-276) -/

def smsGo : Chars → Option Char → Bool → Chars
  | [], q, _ => match q with | some qc => [qc] | none => []
  | c :: rest, q, esc =>
    if esc then c :: smsGo rest q false
    else if c = '\\' then c :: smsGo rest q true
    else if c = '\'' || c = '"' then
      match q with
      | none => c :: smsGo rest (some c) false
      | some qc => if qc = c then c :: smsGo rest none false else c :: smsGo rest q false
    else if (c = '\n' || c = '\r' || c = '\u2028' || c = '\u2029') && q.isSome then
      ' ' :: smsGo rest q false
    else c :: smsGo rest q false

def sanitize_multiline_strings (s : Chars) : Chars := smsGo s none false

/-! ## `_normalize_inline_calls` (lines 214-248) -/

def nicTargets : List Chars :=
  [chs "insert_text(", chs "insert_equation(", chs "insert_latex_equation("]

def nicGo : Chars → Bool → Option Char → Bool → Chars
  | [], inCall, qc, qo =>
    if inCall && qo then [qc.getD '\'', ')'] else []
  | c :: rest, inCall0, qc, qo =>
    let s := c :: rest
    let inCall := inCall0 || nicTargets.any (fun t => t.isPrefixOf s)
    if inCall then
      if c = '\'' || c = '"' then
        match qc with
        | none => c :: nicGo rest true (some c) true
        | some q =>
          if q = c then
            if qo then c :: nicGo rest true none false
            else c :: nicGo rest true (some q) true
          else c :: nicGo rest true (some q) qo
      else if c = '\n' || c = '\r' || c = '\u2028' || c = '\u2029' then
        ' ' :: nicGo rest true qc qo
      else if c = ')' && !qo then
        c :: nicGo rest false qc qo
      else c :: nicGo rest true qc qo
    else c :: nicGo rest false qc qo

def normalize_inline_calls (s : Chars) : Chars := nicGo s false none false

/-! ## `_sanitize_unterminated_equation_strings` (lines 202-212) -/

def sanitize_unterminated_equation_strings (s : Chars) : Chars :=
  joinNL ((splitNL s).map (fun line =>
    if hasSub (chs "insert_equation('") line && line.count '\'' % 2 = 1 then
      line ++ chs "')"
    else if hasSub (chs "insert_equation(\"") line && line.count '"' % 2 = 1 then
      line ++ chs "\")"
    else line))

/-! ## `_normalize_primes_in_equations` (lines 288-314)

The `_fix` helper applies eight `re.sub` rules in sequence after two literal
replacements; each rule is translated as a left-to-right scanner with the
pattern's exact word-boundary / lookahead / case-insensitivity behaviour. -/

/-- Case-insensitive literal match; returns the remainder on success. -/
def matchCI : Chars → Chars → Option Chars
  | [], s => some s
  | _ :: _, [] => none
  | p :: ps, c :: cs => if p.toLower = c.toLower then matchCI ps cs else none

/-- `re.sub(r"\\+prime\b", "'", s, flags=IGNORECASE)`: a maximal run of
backslashes followed by case-insensitive `prime` at a word boundary. -/
def subPrimeRun : Nat → Chars → Chars
  | 0, s => s
  | _, [] => []
  | fuel + 1, s@(c :: rest) =>
    if c = '\\' then
      let bs := s.takeWhile (· = '\\')
      let after := s.drop bs.length
      match matchCI (chs "prime") after with
      | some rest2 =>
        match rest2 with
        | [] => ['\'']
        | d :: _ =>
          if isWordChar d then c :: subPrimeRun fuel rest
          else '\'' :: subPrimeRun fuel rest2
      | none => c :: subPrimeRun fuel rest
    else c :: subPrimeRun fuel rest

/-- `re.sub(r"\\'+", "'", s)`: a backslash followed by one or more quotes. -/
def subBackslashQuote : Nat → Chars → Chars
  | 0, s => s
  | _, [] => []
  | fuel + 1, c :: rest =>
    if c = '\\' && rest.head? = some '\'' then
      let qs := rest.takeWhile (· = '\'')
      '\'' :: subBackslashQuote fuel (rest.drop qs.length)
    else c :: subBackslashQuote fuel rest

/-- `re.sub(r"([A-Za-z])\\(?![A-Za-z])", r"\1'", s)`. -/
def subLetterBackslash : Nat → Chars → Chars
  | 0, s => s
  | _, [] => []
  | fuel + 1, a :: rest =>
    match rest with
    | '\\' :: rest2 =>
      if isAsciiLetter a &&
         !(match rest2.head? with | some d => isAsciiLetter d | none => false) then
        a :: '\'' :: subLetterBackslash fuel rest2
      else a :: subLetterBackslash fuel rest
    | _ => a :: subLetterBackslash fuel rest

/-- Match `rm\s*([A-Za-z])\s*\\(?![A-Za-z])` at the head; returns the
captured letter and the remainder. -/
def matchRmLetterBackslash (s : Chars) : Option (Char × Chars) :=
  match s with
  | 'r' :: 'm' :: rest =>
    match rest.dropWhile isPySpace with
    | l :: r2 =>
      if isAsciiLetter l then
        match r2.dropWhile isPySpace with
        | '\\' :: r4 =>
          if !(match r4.head? with | some d => isAsciiLetter d | none => false) then
            some (l, r4)
          else none
        | _ => none
      else none
    | [] => none
  | _ => none

/-- `re.sub(r"\brm\s*([A-Za-z])\s*\\(?![A-Za-z])", r"rm\1'", s)` with the
word boundary tracked through the previous character. -/
def subRmLetterBackslash : Nat → Option Char → Chars → Chars
  | 0, _, s => s
  | _, _, [] => []
  | fuel + 1, prev, s@(c :: rest) =>
    let boundary := match prev with | none => true | some p => !isWordChar p
    if boundary then
      match matchRmLetterBackslash s with
      | some (l, after) => 'r' :: 'm' :: l :: '\'' :: subRmLetterBackslash fuel (some '\'') after
      | none => c :: subRmLetterBackslash fuel (some c) rest
    else c :: subRmLetterBackslash fuel (some c) rest

/-- Match `rm\s*F\s*'` at the head; returns the remainder. -/
def matchRmFQuote (s : Chars) : Option Chars :=
  match s with
  | 'r' :: 'm' :: rest =>
    match rest.dropWhile isPySpace with
    | 'F' :: r2 =>
      match r2.dropWhile isPySpace with
      | '\'' :: r4 => some r4
      | _ => none
    | _ => none
  | _ => none

/-- `re.sub(r"\brm\s*F\s*'", "rm F prime", s)`. -/
def subRmFQuote : Nat → Option Char → Chars → Chars
  | 0, _, s => s
  | _, _, [] => []
  | fuel + 1, prev, s@(c :: rest) =>
    let boundary := match prev with | none => true | some p => !isWordChar p
    if boundary then
      match matchRmFQuote s with
      | some after => chs "rm F prime" ++ subRmFQuote fuel (some 'e') after
      | none => c :: subRmFQuote fuel (some c) rest
    else c :: subRmFQuote fuel (some c) rest

/-- Match `rm\s*F\s*\\\\(?![A-Za-z])` at the head; returns the remainder. -/
def matchRmFDoubleBackslash (s : Chars) : Option Chars :=
  match s with
  | 'r' :: 'm' :: rest =>
    match rest.dropWhile isPySpace with
    | 'F' :: r2 =>
      match r2.dropWhile isPySpace with
      | '\\' :: '\\' :: r4 =>
        if !(match r4.head? with | some d => isAsciiLetter d | none => false) then
          some r4
        else none
      | _ => none
    | _ => none
  | _ => none

/-- `re.sub(r"\brm\s*F\s*\\\\(?![A-Za-z])", "rm F prime", s)`. -/
def subRmFDoubleBackslash : Nat → Option Char → Chars → Chars
  | 0, _, s => s
  | _, _, [] => []
  | fuel + 1, prev, s@(c :: rest) =>
    let boundary := match prev with | none => true | some p => !isWordChar p
    if boundary then
      match matchRmFDoubleBackslash s with
      | some after => chs "rm F prime" ++ subRmFDoubleBackslash fuel (some 'e') after
      | none => c :: subRmFDoubleBackslash fuel (some c) rest
    else c :: subRmFDoubleBackslash fuel (some c) rest

/-- Match `rm\s*F\s*prime\b` at the head, case-insensitively. -/
def matchRmFPrime (s : Chars) : Option Chars :=
  match matchCI (chs "rm") s with
  | none => none
  | some rest =>
    match rest.dropWhile isPySpace with
    | f :: r2 =>
      if f.toLower = 'f' then
        match matchCI (chs "prime") (r2.dropWhile isPySpace) with
        | some r4 =>
          if !(match r4.head? with | some d => isWordChar d | none => false) then
            some r4
          else none
        | none => none
      else none
    | [] => none

/-- `re.sub(r"\brm\s*F\s*prime\b", "rm F prime", s, flags=IGNORECASE)`. -/
def subRmFPrime : Nat → Option Char → Chars → Chars
  | 0, _, s => s
  | _, _, [] => []
  | fuel + 1, prev, s@(c :: rest) =>
    let boundary := match prev with | none => true | some p => !isWordChar p
    if boundary then
      match matchRmFPrime s with
      | some after => chs "rm F prime" ++ subRmFPrime fuel (some 'e') after
      | none => c :: subRmFPrime fuel (some c) rest
    else c :: subRmFPrime fuel (some c) rest

/-- Match `rm\s+([A-Za-z])'` at the head; returns the letter and remainder. -/
def matchRmSpLetterQuote (s : Chars) : Option (Char × Chars) :=
  match s with
  | 'r' :: 'm' :: rest =>
    let ws := rest.takeWhile isPySpace
    if ws.isEmpty then none
    else
      match rest.drop ws.length with
      | l :: '\'' :: r4 => if isAsciiLetter l then some (l, r4) else none
      | _ => none
  | _ => none

/-- `re.sub(r"\brm\s+([A-Za-z])'", r"rm\1'", s)`. -/
def subRmSpLetterQuote : Nat → Option Char → Chars → Chars
  | 0, _, s => s
  | _, _, [] => []
  | fuel + 1, prev, s@(c :: rest) =>
    let boundary := match prev with | none => true | some p => !isWordChar p
    if boundary then
      match matchRmSpLetterQuote s with
      | some (l, after) => 'r' :: 'm' :: l :: '\'' :: subRmSpLetterQuote fuel (some '\'') after
      | none => c :: subRmSpLetterQuote fuel (some c) rest
    else c :: subRmSpLetterQuote fuel (some c) rest

/-- `_fix` inside `_normalize_primes_in_equations` (lines 293-307). -/
def fixPrimes (s0 : Chars) : Chars :=
  let s := replaceSub (chs "′") (chs "'") s0
  let s := replaceSub (chs "’") (chs "'") s
  let s := subPrimeRun s.length s
  let s := subBackslashQuote s.length s
  let s := subLetterBackslash s.length s
  let s := subRmLetterBackslash s.length none s
  let s := subRmFQuote s.length none s
  let s := subRmFDoubleBackslash s.length none s
  let s := subRmFPrime s.length none s
  subRmSpLetterQuote s.length none s

/-- Non-greedy search for the closing `<quote>)` of the equation-call
pattern; returns (content, remainder-after-close). -/
def npeFindClose (q : Char) : Chars → Option (Chars × Chars)
  | [] => none
  | c :: rest =>
    if c = q && rest.head? = some ')' then some ([], rest.drop 1)
    else
      match npeFindClose q rest with
      | some (cont, aft) => some (c :: cont, aft)
      | none => none

/-- Match `insert_(?:equation|latex_equation)\((['\"])(.*?)(\2\))` at the
head of `s`. -/
def npeMatchAt (s : Chars) : Option (Chars × Char × Chars × Chars) :=
  let tryHead : Chars → Option (Chars × Char × Chars × Chars) := fun h =>
    if h.isPrefixOf s then
      match s.drop h.length with
      | q :: rest =>
        if q = '\'' || q = '"' then
          (npeFindClose q rest).map (fun p => (h, q, p.1, p.2))
        else none
      | [] => none
    else none
  match tryHead (chs "insert_equation(") with
  | some r => some r
  | none => tryHead (chs "insert_latex_equation(")

def npeGo : Nat → Chars → Chars
  | 0, s => s
  | _, [] => []
  | fuel + 1, s@(c :: rest) =>
    match npeMatchAt s with
    | some (h, q, cont, aft) => h ++ q :: (fixPrimes cont ++ q :: ')' :: npeGo fuel aft)
    | none => c :: npeGo fuel rest

/-- `_normalize_primes_in_equations` (lines 288-314): rewrite every
equation-call string via `_fix`, scanning the whole script (DOTALL). -/
def normalize_primes_in_equations (s : Chars) : Chars := npeGo s.length s

/-! ## `_repair_multiline_calls` (lines 155-200) -/

def rmcTrigger (line : Chars) : Bool :=
  hasSub (chs "insert_text(") line || hasSub (chs "insert_equation(") line ||
    hasSub (chs "insert_latex_equation(") line

/-- `" ".join(part.strip() for part in buffer)`. -/
def rmcJoin (buf : List Chars) : Chars := joinWith (chs " ") (buf.map pyStrip)

/-- End-of-input closing of an open buffer (lines 193-199). -/
def rmcClose (q : Char) (joined : Chars) : Chars :=
  if q = '\'' && !endsWith (chs "')") (pyStrip joined) then joined ++ chs "')"
  else if q = '"' && !endsWith (chs "\")") (pyStrip joined) then joined ++ chs "\")"
  else joined

def rmcGo : List Chars → Option (Char × List Chars) → List Chars
  | [], none => []
  | [], some (q, buf) => [rmcClose q (rmcJoin buf)]
  | line :: rest, none =>
    if rmcTrigger line then
      if countUnescaped '\'' line false % 2 = 1 then rmcGo rest (some ('\'', [line]))
      else if countUnescaped '"' line false % 2 = 1 then rmcGo rest (some ('"', [line]))
      else line :: rmcGo rest none
    else line :: rmcGo rest none
  | line :: rest, some (q, buf) =>
    let buf := buf ++ [line]
    if (buf.map (fun l => countUnescaped q l false)).sum % 2 = 0 then
      rmcJoin buf :: rmcGo rest none
    else rmcGo rest (some (q, buf))

def repair_multiline_calls (lines : List Chars) : List Chars := rmcGo lines none

/-! ## `_split_concat_calls` (lines 112-153) -/

def sccGo : Nat → Chars → Option Char → Bool → Chars → List Chars → List Chars
  | _, [], _, _, buf, parts =>
    let tail := pyStrip buf.reverse
    if !tail.isEmpty then parts ++ [tail] else parts
  | 0, s, _, _, buf, parts =>
    let tail := pyStrip (buf.reverse ++ s)
    if !tail.isEmpty then parts ++ [tail] else parts
  | fuel + 1, c :: rest, q, esc, buf, parts =>
    if esc then sccGo fuel rest q false (c :: buf) parts
    else if c = '\\' then sccGo fuel rest q true (c :: buf) parts
    else if c = '\'' || c = '"' then
      let q' := match q with
        | none => some c
        | some qc => if qc = c then none else some qc
      sccGo fuel rest q' false (c :: buf) parts
    else if q = none && (chs " + ").isPrefixOf (c :: rest) then
      let part := pyStrip buf.reverse
      let parts := if !part.isEmpty then parts ++ [part] else parts
      sccGo fuel ((c :: rest).drop 3) none false [] parts
    else sccGo fuel rest q false (c :: buf) parts

def split_concat_calls (line : Chars) : List Chars :=
  if !hasSub (chs " + ") line then [line]
  else
    let parts := sccGo line.length line none false [] []
    if parts.isEmpty then [line] else parts

/-! ## `_promote_math_insert_text_calls` (lines 68-110)

The source checks the line's shape with `ast.parse` and promotes it only when
the expression is a call of `insert_text` with a single string-constant
positional argument.  The embedding recognises exactly that shape written as
`insert_text('<literal>')` / `insert_text("<literal>")` with optional
whitespace; the string literal decoder covers the simple escapes
(`\\ \' \" \n \t \r`) and keeps unknown escapes verbatim as Python does.
Exotic Python spellings the runtime parser would also accept (implicit string
concatenation, trailing comma, `\xNN`/`\uNNNN` escapes, trailing comments)
are treated as non-matching, which leaves such lines unchanged — the same
result the source produces for every non-matching line. -/

def decodeStrLit (q : Char) : Chars → Option (Chars × Chars)
  | [] => none
  | c :: rest =>
    if c = q then some ([], rest)
    else if c = '\n' then none
    else if c = '\\' then
      match rest with
      | [] => none
      | e :: rest2 =>
        let dec : Chars :=
          if e = 'n' then ['\n'] else if e = 't' then ['\t'] else if e = 'r' then ['\r']
          else if e = '\\' then ['\\'] else if e = '\'' then ['\''] else if e = '"' then ['"']
          else ['\\', e]
        (decodeStrLit q rest2).map (fun p => (dec ++ p.1, p.2))
    else (decodeStrLit q rest).map (fun p => (c :: p.1, p.2))

def parse_insert_text_call (stripped : Chars) : Option Chars :=
  if (chs "insert_text(").isPrefixOf stripped then
    match (stripped.drop (chs "insert_text(").length).dropWhile isPySpace with
    | q :: rest =>
      if q = '\'' || q = '"' then
        match decodeStrLit q rest with
        | some (arg, r2) =>
          match r2.dropWhile isPySpace with
          | ')' :: r4 => if (r4.dropWhile isPySpace).isEmpty then some arg else none
          | _ => none
        | none => none
      else none
    | [] => none
  else none

/-- Strong markers of `_looks_like_hwpeq_text` (lines 38-58). -/
def strongMarkers : List Chars :=
  [chs "\x7brm", chs "rm ", chs "\x7bbold", chs "bold ", chs "vec\x7b", chs "CDOT",
   chs "dint", chs "curl", chs "div", chs "LEFT", chs "RIGHT", chs "over",
   chs "sqrt", chs "it ", chs "SIM", chs "DEG", chs "ANGLE", chs "pi"]

/-- `_looks_like_hwpeq_text` (lines 35-66). -/
def looks_like_hwpeq_text (text : Chars) : Bool :=
  let s := pyStrip text
  if s.isEmpty then false
  else if !(strongMarkers.any (fun m => hasSub m s)) then false
  else
    (s.any (fun c =>
      c = '=' || c = '^' || c = '_' || c = lbrace || c = rbrace || c = '(' || c = ')')) ||
    hasSub (chs "CDOT") s || hasSub (chs "LEFT") s || hasSub (chs "RIGHT") s ||
    hasSub (chs "dint") s || hasSub (chs "curl") s || hasSub (chs "div") s ||
    hasSub (chs "vec") s || hasSub (chs "rm") s || hasSub (chs "bold") s

def hexDigitChar (n : Nat) : Char :=
  if n < 10 then Char.ofNat (48 + n) else Char.ofNat (87 + n)

/-- Python `repr` of a string (`{text_arg!r}` in the promotion f-string):
single quotes unless the text holds a single quote and no double quote;
backslash, quote and control-character escaping as CPython prints them. -/
def pyReprChar (q : Char) (c : Char) : Chars :=
  if c = '\\' then chs "\\\\"
  else if c = q then ['\\', q]
  else if c = '\n' then chs "\\n"
  else if c = '\r' then chs "\\r"
  else if c = '\t' then chs "\\t"
  else if c.val < 32 || c.val = 127 then
    ['\\', 'x', hexDigitChar (c.toNat / 16), hexDigitChar (c.toNat % 16)]
  else [c]

def pyRepr (s : Chars) : Chars :=
  let q := if s.contains '\'' && !(s.contains '"') then '"' else '\''
  q :: ((s.map (pyReprChar q)).flatten ++ [q])

/-- `_promote_math_insert_text_calls` (lines 68-110). -/
def promote_math_insert_text_calls (lines : List Chars) : List Chars :=
  lines.map (fun line =>
    let stripped := pyStrip line
    if !(chs "insert_text(").isPrefixOf stripped then line
    else
      match parse_insert_text_call stripped with
      | none => line
      | some arg =>
        if !looks_like_hwpeq_text arg then line
        else
          let indent := line.takeWhile isPySpace
          indent ++ chs "insert_equation(" ++ pyRepr arg ++ chs ")")

/-! ## `_normalize_placeholders` (lines 415-584) -/

/-- Full match of `^\s*focus_placeholder\(\s*(['\"])(.*?)\1\s*\)\s*$`,
returning the marker (group 2). -/
def fpCloseTail (r : Chars) : Bool :=
  match r.dropWhile isPySpace with
  | ')' :: r2 => (r2.dropWhile isPySpace).isEmpty
  | _ => false

def fpContent (q : Char) : Chars → Chars → Option Chars
  | acc, [] =>
    let _ := acc
    none
  | acc, c :: rest =>
    if c = q && fpCloseTail rest then some acc.reverse
    else fpContent q (c :: acc) rest

def fpMatch (s : Chars) : Option Chars :=
  let s1 := s.dropWhile isPySpace
  if (chs "focus_placeholder(").isPrefixOf s1 then
    match (s1.drop (chs "focus_placeholder(").length).dropWhile isPySpace with
    | q :: rest => if q = '\'' || q = '"' then fpContent q [] rest else none
    | [] => none
  else none

/-- `box_item_re`: `^\s*insert_text\(\s*['\"]\s*[ㄱㄴㄷ]\.`. -/
def boxItemMatch (s : Chars) : Bool :=
  let s1 := s.dropWhile isPySpace
  if (chs "insert_text(").isPrefixOf s1 then
    match (s1.drop (chs "insert_text(").length).dropWhile isPySpace with
    | q :: rest =>
      (q = '\'' || q = '"') &&
        (match rest.dropWhile isPySpace with
         | k :: '.' :: _ => k = 'ㄱ' || k = 'ㄴ' || k = 'ㄷ'
         | _ => false)
    | [] => false
  else false

/-- `content_re`: `^\s*(insert_text|insert_equation|set_bold|set_align_justify_next_line|set_align_right_next_line)\(`. -/
def contentMatch (s : Chars) : Bool :=
  let s1 := s.dropWhile isPySpace
  (chs "insert_text(").isPrefixOf s1 || (chs "insert_equation(").isPrefixOf s1 ||
    (chs "set_bold(").isPrefixOf s1 || (chs "set_align_justify_next_line(").isPrefixOf s1 ||
    (chs "set_align_right_next_line(").isPrefixOf s1

/-- `box_start_re`: `^\s*insert_text\(\s*['\"]\s*(○|◎|●|•|ㄱ\.|ㄴ\.|ㄷ\.|가\.|나\.|다\.)`. -/
def boxStartMatch (s : Chars) : Bool :=
  let s1 := s.dropWhile isPySpace
  if (chs "insert_text(").isPrefixOf s1 then
    match (s1.drop (chs "insert_text(").length).dropWhile isPySpace with
    | q :: rest =>
      (q = '\'' || q = '"') &&
        (match rest.dropWhile isPySpace with
         | k :: krest =>
           k = '○' || k = '◎' || k = '●' || k = '•' ||
             ((k = 'ㄱ' || k = 'ㄴ' || k = 'ㄷ' || k = '가' || k = '나' || k = '다') &&
               krest.head? = some '.')
         | [] => false)
    | [] => false
  else false

/-- `choice_re`: `^\s*insert_(?:text|equation)\(\s*['\"].*①`. -/
def choiceMatch (s : Chars) : Bool :=
  let s1 := s.dropWhile isPySpace
  let afterName : Option Chars :=
    if (chs "insert_text(").isPrefixOf s1 then some (s1.drop (chs "insert_text(").length)
    else if (chs "insert_equation(").isPrefixOf s1 then
      some (s1.drop (chs "insert_equation(").length)
    else none
  match afterName with
  | some r =>
    match r.dropWhile isPySpace with
    | q :: rest => (q = '\'' || q = '"') && rest.contains '①'
    | [] => false
  | none => false

/-- Lookback for `exit_box()` over the last (up to 19) emitted lines,
stopping at the most recent box entry (lines 562-574). -/
def lookbackExited : Nat → List Chars → Bool
  | 0, _ => false
  | _, [] => false
  | n + 1, l :: rest =>
    let s := pyStrip l
    if s = chs "exit_box()" then true
    else if s = chs "focus_placeholder('###')" || s = chs "focus_placeholder(\"###\")" ||
        s = chs "insert_box()" || s = chs "insert_view_box()" then false
    else lookbackExited n rest

structure NPState where
  seen_inside : Bool
  inserted_inside : Bool
  saw_template : Bool
  has_choices_placeholder : Bool
  saw_outside : Bool
  saw_after_box : Bool
  dual_hash_count : Nat
  dual_box_phase : Nat

/-- One line of the `_normalize_placeholders` loop; `revOut` is the emitted
output in reverse order. -/
def npLine (dualMode : Bool) (st : NPState) (revOut : List Chars) (line : Chars) :
    NPState × List Chars :=
  let stripped := pyStrip line
  if (chs "insert_template(").isPrefixOf stripped &&
     (hasSub (chs "header.hwp") stripped || hasSub (chs "box.hwp") stripped ||
       hasSub (chs "box_white.hwp") stripped) then
    if dualMode && (hasSub (chs "box.hwp") stripped || hasSub (chs "box_white.hwp") stripped) &&
       !hasSub (chs "header.hwp") stripped then
      (st, revOut)
    else
      let st := { st with saw_template := true }
      let st :=
        if hasSub (chs "header.hwp") stripped || hasSub (chs "box_white.hwp") stripped ||
           hasSub (chs "box.hwp") stripped then
          { st with has_choices_placeholder := true }
        else st
      (st, line :: revOut)
  else
    match fpMatch stripped with
    | none =>
      let st :=
        if dualMode && st.dual_box_phase = 1 && stripped = chs "exit_box()" then
          { st with dual_box_phase := 2, seen_inside := false, inserted_inside := false }
        else st
      let (st, revOut) :=
        if st.saw_template && !st.saw_outside && contentMatch stripped then
          ({ st with saw_outside := true }, chs "focus_placeholder('@@@')" :: revOut)
        else (st, revOut)
      let (st, revOut) :=
        if !st.seen_inside && st.saw_template && st.has_choices_placeholder && st.saw_outside &&
           !st.saw_after_box &&
           (stripped = chs "set_align_justify_next_line()" || boxItemMatch stripped ||
             boxStartMatch stripped) then
          ({ st with seen_inside := true, inserted_inside := true },
            chs "focus_placeholder('###')" :: revOut)
        else (st, revOut)
      let (st, revOut) :=
        if !st.seen_inside && st.saw_template && st.saw_outside && boxItemMatch stripped then
          let revOut' :=
            if revOut.head?.map pyStrip = some (chs "set_align_justify_next_line()") then
              chs "set_align_justify_next_line()" :: chs "focus_placeholder('###')" ::
                revOut.tail
            else chs "focus_placeholder('###')" :: revOut
          ({ st with seen_inside := true, inserted_inside := true }, revOut')
        else (st, revOut)
      let (st, revOut) :=
        if st.seen_inside && st.saw_template && st.has_choices_placeholder &&
           !st.saw_after_box && choiceMatch stripped then
          ({ st with saw_after_box := true },
            chs "focus_placeholder('&&&')" :: chs "insert_enter()" :: chs "exit_box()" :: revOut)
        else (st, revOut)
      (st, line :: revOut)
    | some marker =>
      if marker = chs "###" then
        if dualMode then
          let cnt := st.dual_hash_count + 1
          let st := { st with dual_hash_count := cnt }
          if cnt = 1 then
            ({ st with seen_inside := true, dual_box_phase := 1 }, chs "insert_box()" :: revOut)
          else if st.dual_box_phase = 1 then
            ({ st with dual_box_phase := 2, seen_inside := true },
              line :: chs "insert_enter()" :: chs "exit_box()" :: revOut)
          else ({ st with seen_inside := true }, line :: revOut)
        else if !st.inserted_inside then
          ({ st with seen_inside := true }, line :: revOut)
        else (st, revOut)
      else if marker = chs "@@@" then
        let st := { st with saw_outside := true }
        if st.seen_inside then
          (st, chs "insert_enter()" :: chs "exit_box()" :: revOut)
        else if st.saw_template then (st, line :: revOut)
        else (st, revOut)
      else if marker = chs "&&&" then
        if st.has_choices_placeholder then
          let st := { st with saw_after_box := true }
          if st.seen_inside then
            if lookbackExited 19 revOut then (st, line :: revOut)
            else (st, line :: chs "insert_enter()" :: chs "exit_box()" :: revOut)
          else (st, line :: revOut)
        else (st, revOut)
      else (st, line :: revOut)

def normalize_placeholders (lines : List Chars) : List Chars :=
  let hasHeaderTpl := lines.any (fun l =>
    (chs "insert_template(").isPrefixOf (pyStrip l) && hasSub (chs "header.hwp") l)
  let hasPlainBoxTpl := lines.any (fun l =>
    (chs "insert_template(").isPrefixOf (pyStrip l) &&
      (hasSub (chs "box.hwp") l || hasSub (chs "box_white.hwp") l) &&
      !hasSub (chs "header.hwp") l)
  let dualMode := hasHeaderTpl && hasPlainBoxTpl
  let init : NPState := ⟨false, false, false, false, false, false, 0, 0⟩
  (lines.foldl (fun (acc : NPState × List Chars) line => npLine dualMode acc.1 acc.2 line)
    (init, [])).2.reverse

/-! ## `_split_dual_content_in_header` (lines 586-762) -/

def nthLine (ls : List Chars) (i : Nat) : Chars := (ls.get? i).getD []

def sliceLines (ls : List Chars) (lo hi : Nat) : List Chars := (ls.drop lo).take (hi - lo)

/-- `a\s*b` containment (used by `question_re` alternatives with `\s*`). -/
def seq2At (a b : Chars) (s : Chars) : Bool :=
  a.isPrefixOf s && b.isPrefixOf ((s.drop a.length).dropWhile isPySpace)

def hasSeq2 (a b : Chars) : Chars → Bool
  | [] => seq2At a b []
  | s@(_ :: rest) => seq2At a b s || hasSeq2 a b rest

/-- `<\s*보\s*기\s*>` containment. -/
def bogiAngleAt (s : Chars) : Bool :=
  match s with
  | '<' :: r =>
    match r.dropWhile isPySpace with
    | '보' :: r2 =>
      match r2.dropWhile isPySpace with
      | '기' :: r3 => (r3.dropWhile isPySpace).head? = some '>'
      | _ => false
    | _ => false
  | _ => false

def hasBogiAngle : Chars → Bool
  | [] => false
  | s@(_ :: rest) => bogiAngleAt s || hasBogiAngle rest

/-- `question_re.search` (lines 645-648).  `것은\s*\??` reduces to containment
of `것은` since its tail is optional. -/
def questionSearch (s : Chars) : Bool :=
  hasSeq2 (chs "이에") (chs "대한") s || hasSub (chs "것은") s || hasSub (chs "것만을") s ||
    hasSub (chs "옳은") s || hasSub (chs "옳지") s || hasBogiAngle s ||
    hasSub (chs "보기>") s || hasSub (chs "바르게") s || hasSub (chs "짝지은") s ||
    hasSeq2 (chs "대로") (chs "고") s || hasSub (chs "고른") s || hasSub (chs "맞게") s ||
    hasSub (chs "맞는") s || hasSub (chs "틀린") s || hasSub (chs "아닌") s ||
    hasSub (chs "설명으로") s

/-- `re.search(r"['\"](.+?)['\"]", s)`: the first quoted run (either quote
style opens, either closes, content non-empty and non-greedy). -/
def eqQuotedTail : Chars → Chars → Option Chars
  | _, [] => none
  | acc, c :: rest =>
    if (c = '\'' || c = '"') && !acc.isEmpty then some acc.reverse
    else eqQuotedTail (c :: acc) rest

def extractFirstQuoted : Chars → Option Chars
  | [] => none
  | c :: rest =>
    if c = '\'' || c = '"' then eqQuotedTail [] rest
    else extractFirstQuoted rest

/-- Locate the first `focus_placeholder('###')` and the first following
`exit_box()` (lines 609-619). -/
def sdFindHashExit : List Chars → Nat → Option Nat → Option Nat → Option Nat × Option Nat
  | [], _, h, e => (h, e)
  | l :: rest, i, h, e =>
    let s := pyStrip l
    if h = none && (s = chs "focus_placeholder('###')" || s = chs "focus_placeholder(\"###\")") then
      sdFindHashExit rest (i + 1) (some i) e
    else if h ≠ none && e = none && s = chs "exit_box()" then
      sdFindHashExit rest (i + 1) h (some i)
    else sdFindHashExit rest (i + 1) h e

/-- Backward question-text scan (lines 649-686).  `i` counts down from
`first_bogi - 1`; returns the detected `question_start` and whether any
question text was found. -/
def sdBackScan (lines : List Chars) (hashIdx : Nat) : Nat → Nat → Bool → Nat × Bool
  | 0, qs, found => (qs, found)
  | i + 1, qs, found =>
    if i + 1 ≤ hashIdx then (qs, found)
    else
      let stripped := pyStrip (nthLine lines (i + 1))
      if stripped.isEmpty || stripped = chs "insert_paragraph()" ||
         stripped = chs "insert_enter()" || stripped = chs "insert_small_paragraph()" then
        sdBackScan lines hashIdx i qs found
      else if stripped = chs "set_align_justify_next_line()" ||
          stripped = chs "set_bold(True)" || stripped = chs "set_bold(False)" then
        sdBackScan lines hashIdx i (if found then i + 1 else qs) found
      else if (chs "insert_text(").isPrefixOf stripped ||
          (chs "insert_equation(").isPrefixOf stripped then
        match extractFirstQuoted stripped with
        | some content =>
          if questionSearch content then sdBackScan lines hashIdx i (i + 1) true
          else (qs, found)
        | none => (qs, found)
      else (qs, found)

/-- The two identical `while` loops pulling paragraph breaks and blanks into
the section above (lines 689-703). -/
def sdExtendUp (lines : List Chars) (hashIdx : Nat) : Nat → Nat
  | 0 => 0
  | q + 1 =>
    if q + 1 > hashIdx + 1 &&
       (let s := pyStrip (nthLine lines q)
        s = chs "insert_paragraph()" || s = chs "insert_enter()" || s.isEmpty) then
      sdExtendUp lines hashIdx q
    else q + 1

def split_dual_content_in_header (lines : List Chars) : List Chars :=
  let hasHeader := lines.any (fun l =>
    hasSub (chs "header.hwp") l && hasSub (chs "insert_template(") l)
  if !hasHeader then lines
  else if lines.any (fun l => pyStrip l = chs "insert_box()") then lines
  else
    match sdFindHashExit lines 0 none none with
    | (some hashIdx, some exitIdx) =>
      let firstBogi? := (List.range' (hashIdx + 1) (exitIdx - (hashIdx + 1))).find?
        (fun i => boxItemMatch (pyStrip (nthLine lines i)))
      match firstBogi? with
      | none => lines
      | some firstBogi =>
        let preText := (List.range' (hashIdx + 1) (firstBogi - (hashIdx + 1))).any
          (fun i =>
            (chs "insert_text(").isPrefixOf (pyStrip (nthLine lines i)) ||
              (chs "insert_equation(").isPrefixOf (pyStrip (nthLine lines i)))
        if !preText then lines
        else
          let (qs0, _) := sdBackScan lines hashIdx (firstBogi - 1) firstBogi false
          let questionStart := sdExtendUp lines hashIdx qs0
          let conditionEnd := sdExtendUp lines hashIdx questionStart
          let hasRealCondition := (List.range' (hashIdx + 1) (conditionEnd - (hashIdx + 1))).any
            (fun j =>
              (chs "insert_text(").isPrefixOf (pyStrip (nthLine lines j)) ||
                (chs "insert_equation(").isPrefixOf (pyStrip (nthLine lines j)))
          if !hasRealCondition then lines
          else
            let out := lines.take hashIdx
            let out := out ++ [chs "insert_box()"]
            let contentStart := hashIdx + 1
            let (out, contentStart) :=
              if contentStart < conditionEnd &&
                 pyStrip (nthLine lines contentStart) = chs "set_align_justify_next_line()" then
                (out ++ [nthLine lines contentStart], contentStart + 1)
              else (out, contentStart)
            let out := out ++ sliceLines lines contentStart conditionEnd
            let out := out ++ [chs "exit_box()", chs "insert_enter()"]
            let (out, hasQuestionContent) :=
              (List.range' questionStart (firstBogi - questionStart)).foldl
                (fun (acc : List Chars × Bool) j =>
                  let l := nthLine lines j
                  let s := pyStrip l
                  if s = chs "set_align_justify_next_line()" then acc
                  else
                    (acc.1 ++ [l],
                      acc.2 || (chs "insert_text(").isPrefixOf s ||
                        (chs "insert_equation(").isPrefixOf s))
                (out, false)
            let out :=
              if hasQuestionContent &&
                 (out.isEmpty ||
                   !(let s := pyStrip (out.getLast!)
                     s = chs "insert_paragraph()" || s = chs "insert_enter()")) then
                out ++ [chs "insert_enter()"]
              else out
            let out := out ++ [chs "focus_placeholder('###')", chs "set_align_justify_next_line()"]
            let out := out ++ sliceLines lines firstBogi exitIdx
            let out := out ++ [nthLine lines exitIdx]
            out ++ lines.drop (exitIdx + 1)
    | _ => lines

/-! ## `_normalize_box_paragraphs` (lines 764-820) -/

def nbpPopPara (revOut : List Chars) : List Chars :=
  match revOut with
  | l :: rest =>
    let s := pyStrip l
    if s = chs "insert_paragraph()" || s = chs "insert_enter()" then rest else revOut
  | [] => revOut

structure NBPState where
  inBox : Bool
  lastWasParaInBox : Bool

def nbpLine (st : NBPState) (revOut : List Chars) (line : Chars) : NBPState × List Chars :=
  let stripped := pyStrip line
  match fpMatch stripped with
  | some marker =>
    if marker = chs "###" then (⟨true, false⟩, line :: revOut)
    else if marker = chs "&&&" || marker = chs "@@@" then
      let revOut := if st.inBox then nbpPopPara revOut else revOut
      (⟨false, false⟩, line :: revOut)
    else (st, line :: revOut)
  | none =>
    if stripped = chs "insert_box()" || stripped = chs "insert_view_box()" then
      (⟨true, false⟩, line :: revOut)
    else if stripped = chs "exit_box()" then
      let revOut := if st.inBox then nbpPopPara revOut else revOut
      (⟨false, false⟩, line :: revOut)
    else if st.inBox &&
        (stripped = chs "insert_paragraph()" || stripped = chs "insert_enter()" ||
          stripped = chs "insert_small_paragraph()" ||
          stripped = chs "insert_small_paragraph_3px()") then
      if st.lastWasParaInBox then (st, revOut)
      else ({ st with lastWasParaInBox := true }, chs "insert_enter()" :: revOut)
    else
      let st := if !stripped.isEmpty then { st with lastWasParaInBox := false } else st
      (st, line :: revOut)

def normalize_box_paragraphs (lines : List Chars) : List Chars :=
  (lines.foldl (fun (acc : NBPState × List Chars) line => nbpLine acc.1 acc.2 line)
    (⟨false, false⟩, [])).2.reverse

/-! ## `_drop_enter_after_exit_box` (lines 822-838) -/

def deaGo : List Chars → Bool → List Chars
  | [], _ => []
  | line :: rest, skipNext =>
    let stripped := pyStrip line
    if skipNext && (stripped = chs "insert_enter()" || stripped = chs "insert_paragraph()") then
      deaGo rest false
    else line :: deaGo rest (stripped = chs "exit_box()")

def drop_enter_after_exit_box (lines : List Chars) : List Chars := deaGo lines false

/-! ## `_ensure_exit_after_plain_box` (lines 840-872) -/

def eepGo : List Chars → Bool → List Chars
  | [], inBox => if inBox then [chs "exit_box()"] else []
  | line :: rest, inBox =>
    let stripped := pyStrip line
    if stripped = chs "insert_box()" then line :: eepGo rest true
    else if stripped = chs "exit_box()" then line :: eepGo rest false
    else if inBox then
      let outsideMarker :=
        (chs "insert_template(").isPrefixOf stripped ||
          stripped = chs "focus_placeholder('###')" ||
          stripped = chs "focus_placeholder(\"###\")" ||
          stripped = chs "focus_placeholder('&&&')" ||
          stripped = chs "focus_placeholder(\"&&&\")" ||
          (match fpMatch stripped with
           | some m => m = chs "@@@" || m = chs "###" || m = chs "&&&"
           | none => false)
      if outsideMarker then chs "exit_box()" :: line :: eepGo rest false
      else line :: eepGo rest true
    else line :: eepGo rest false

def ensure_exit_after_plain_box (lines : List Chars) : List Chars := eepGo lines false

/-! ## `_normalize_box_template_order` (lines 874-911) -/

def isFpAtMarker (l : Chars) : Bool :=
  pyStrip l = chs "focus_placeholder('@@@')" || pyStrip l = chs "focus_placeholder(\"@@@\")"

def nbtGo : Nat → List Chars → List Chars
  | 0, ls => ls
  | _, [] => []
  | fuel + 1, line :: rest =>
    let stripped := pyStrip line
    if (chs "insert_template(").isPrefixOf stripped && hasSub (chs "box.hwp") stripped then
      let blanks := rest.takeWhile (fun l => (pyStrip l).isEmpty)
      let rest2 := rest.drop blanks.length
      match rest2 with
      | l2 :: rest3 =>
        if isFpAtMarker l2 then line :: (blanks ++ l2 :: nbtGo fuel rest3)
        else line :: (blanks ++ chs "focus_placeholder('@@@')" :: nbtGo fuel rest2)
      | [] => line :: (blanks ++ [chs "focus_placeholder('@@@')"])
    else if isFpAtMarker line then
      if rest.any (fun l =>
          (chs "insert_template(").isPrefixOf (pyStrip l) && hasSub (chs "box.hwp") l) then
        nbtGo fuel rest
      else line :: nbtGo fuel rest
    else line :: nbtGo fuel rest

def normalize_box_template_order (lines : List Chars) : List Chars :=
  nbtGo lines.length lines

/-! ## `_fix_header_view_box_order` (lines 913-989) -/

def pyPop (ls : List Chars) (i : Nat) : List Chars := ls.take i ++ ls.drop (i + 1)

def pyInsertAt (ls : List Chars) (i : Nat) (v : Chars) : List Chars :=
  ls.take i ++ v :: ls.drop i

structure FHIdx where
  firstBox : Int
  lastBox : Int
  firstChoice : Int
  hashIdx : Int
  ampIdx : Int
  exitIdx : Int

def fhScan (lines : List Chars) : FHIdx :=
  (lines.foldl (fun (acc : FHIdx × Int) line =>
    let (ix, i) := acc
    let stripped := pyStrip line
    let ix := if ix.firstBox < 0 && boxItemMatch stripped then { ix with firstBox := i } else ix
    let ix := if boxItemMatch stripped then { ix with lastBox := i } else ix
    let ix := if ix.firstChoice < 0 && choiceMatch stripped then { ix with firstChoice := i } else ix
    let ix :=
      if ix.hashIdx < 0 && (stripped = chs "focus_placeholder('###')" ||
          stripped = chs "focus_placeholder(\"###\")") then
        { ix with hashIdx := i }
      else ix
    let ix :=
      if ix.ampIdx < 0 && (stripped = chs "focus_placeholder('&&&')" ||
          stripped = chs "focus_placeholder(\"&&&\")") then
        { ix with ampIdx := i }
      else ix
    let ix := if ix.exitIdx < 0 && stripped = chs "exit_box()" then { ix with exitIdx := i } else ix
    (ix, i + 1)) (⟨-1, -1, -1, -1, -1, -1⟩, 0)).1

/-- The trailing `while` advancing past blank lines (lines 984-986). -/
def fhNextNonBlank (out : List Chars) : Nat → Nat → Nat
  | 0, i => i
  | fuel + 1, i =>
    if i < out.length && (pyStrip (nthLine out i)).isEmpty then fhNextNonBlank out fuel (i + 1)
    else i

def fix_header_view_box_order (lines : List Chars) : List Chars :=
  let hasHeader := lines.any (fun l =>
    (chs "insert_template(").isPrefixOf (pyStrip l) && hasSub (chs "header.hwp") l)
  if !hasHeader then lines
  else
    let ix := fhScan lines
    if ix.firstBox < 0 then lines
    else
      let out := lines
      let firstBox := ix.firstBox
      let firstChoice := ix.firstChoice
      -- Ensure ### is placed right before the box items.
      let (out, hashIdx, firstBox) :=
        if ix.hashIdx ≥ 0 && ix.hashIdx > firstBox then
          let out := pyPop out ix.hashIdx.toNat
          let firstBox := if ix.hashIdx < firstBox then firstBox - 1 else firstBox
          (out, (-1 : Int), firstBox)
        else (out, ix.hashIdx, firstBox)
      let (out, firstChoice) :=
        if hashIdx < 0 || hashIdx > firstBox then
          let insertAt :=
            if firstBox > 0 &&
               pyStrip (nthLine out (firstBox - 1).toNat) = chs "set_align_justify_next_line()" then
              firstBox - 1
            else firstBox
          let out := pyInsertAt out insertAt.toNat (chs "focus_placeholder('###')")
          let firstChoice :=
            if firstChoice ≥ 0 && insertAt ≤ firstChoice then firstChoice + 1 else firstChoice
          (out, firstChoice)
        else (out, firstChoice)
      -- Ensure choices are after &&& and exit_box appears before choices.
      let out :=
        if firstChoice ≥ 0 && (ix.ampIdx < 0 || ix.ampIdx > firstChoice) then
          let out := pyInsertAt out firstChoice.toNat (chs "focus_placeholder('&&&')")
          pyInsertAt out firstChoice.toNat (chs "exit_box()")
        else out
      -- Ensure the box is exited immediately after the last item.
      if ix.lastBox ≥ 0 then
        let nextIdx := fhNextNonBlank out out.length (ix.lastBox.toNat + 1)
        if nextIdx < out.length && pyStrip (nthLine out nextIdx) ≠ chs "exit_box()" then
          pyInsertAt out nextIdx (chs "exit_box()")
        else out
      else out

/-! ## `_normalize_choice_leading_space` (lines 991-1007) -/

def clsMatch (s : Chars) : Option (Chars × Chars) :=
  let ws0 := s.takeWhile isPySpace
  let s1 := s.drop ws0.length
  if (chs "insert_text(").isPrefixOf s1 then
    let r := s1.drop (chs "insert_text(").length
    let ws1 := r.takeWhile isPySpace
    match r.drop ws1.length with
    | q :: rest =>
      if q = '\'' || q = '"' then
        let pfx := ws0 ++ chs "insert_text(" ++ ws1 ++ [q]
        let sp := rest.takeWhile isPySpace
        if sp.isEmpty then none
        else
          match rest.drop sp.length with
          | '①' :: r2 =>
            match r2 with
            | q2 :: r3 =>
              if q2 = '\'' || q2 = '"' then
                match r3.dropWhile isPySpace with
                | ')' :: r4 => if r4.all isPySpace then some (pfx, q2 :: r3) else none
                | _ => none
              else none
            | [] => none
          | _ => none
      else none
    | [] => none
  else none

def normalize_choice_leading_space (lines : List Chars) : List Chars :=
  lines.map (fun line =>
    match clsMatch (pyStrip line) with
    | some (pfx, sfx) => pfx ++ '①' :: sfx
    | none => line)

/-! ## `_drop_unused_choices_placeholder` (lines 1009-1050) -/

def isFpAmpLine (l : Chars) : Bool :=
  pyStrip l = chs "focus_placeholder('&&&')" || pyStrip l = chs "focus_placeholder(\"&&&\")"

def drop_unused_choices_placeholder (lines : List Chars) : List Chars :=
  let hasChoicesPlaceholder := lines.any (fun l =>
    (chs "insert_template(").isPrefixOf (pyStrip l) &&
      (hasSub (chs "header.hwp") l || hasSub (chs "box.hwp") l ||
        hasSub (chs "box_white.hwp") l))
  let lastChoice : Int := (lines.foldl (fun (acc : Int × Int) line =>
    let (last, i) := acc
    (if choiceMatch (pyStrip line) then i else last, i + 1)) (-1, 0)).1
  if lastChoice < 0 then
    let out := lines.filter (fun l => !isFpAmpLine l)
    if hasChoicesPlaceholder then
      let lastExit : Int := (out.foldl (fun (acc : Int × Int) line =>
        let (last, i) := acc
        (if pyStrip line = chs "exit_box()" then i else last, i + 1)) (-1, 0)).1
      let insertAt : Nat := if lastExit ≥ 0 then lastExit.toNat + 1 else out.length
      pyInsertAt out insertAt (chs "focus_placeholder('&&&')")
    else out
  else
    ((lines.foldl (fun (acc : List Chars × Int) line =>
      let (out, i) := acc
      if isFpAmpLine line && i > lastChoice then (out, i + 1)
      else (out ++ [line], i + 1)) ([], 0)).1)

/-! ## `_ensure_score_right_align` (lines 316-390) -/

/-- Full match of `score_re` (line 318-320); returns the digit run (group 4). -/
def scoreMatch (line : Chars) : Option Chars :=
  let s1 := line.dropWhile isPySpace
  let afterName? : Option Chars :=
    if (chs "insert_text(").isPrefixOf s1 then some (s1.drop (chs "insert_text(").length)
    else if (chs "insert_equation(").isPrefixOf s1 then
      some (s1.drop (chs "insert_equation(").length)
    else if (chs "insert_latex_equation(").isPrefixOf s1 then
      some (s1.drop (chs "insert_latex_equation(").length)
    else none
  match afterName? with
  | none => none
  | some r =>
    match r.dropWhile isPySpace with
    | q :: r1 =>
      if q = '\'' || q = '"' then
        match r1.dropWhile isPySpace with
        | '[' :: r3 =>
          let r4 := r3.dropWhile isPySpace
          let digits := r4.takeWhile (fun c => '0' ≤ c && c ≤ '9')
          if digits.isEmpty then none
          else
            match (r4.drop digits.length).dropWhile isPySpace with
            | '점' :: r6 =>
              match r6.dropWhile isPySpace with
              | ']' :: r8 =>
                match r8.dropWhile isPySpace with
                | q2 :: r10 =>
                  if q2 = q then
                    match r10.dropWhile isPySpace with
                    | ')' :: r11 => if r11.all isPySpace then some digits else none
                    | _ => none
                  else none
                | [] => none
              | _ => none
            | _ => none
        | _ => none
      else none
    | [] => none

/-- The `while`-pop collapsing breaks before the score line (lines 350-367),
on the reversed output. -/
def scorePop : List Chars → List Chars
  | [] => []
  | l :: rest =>
    let s := pyStrip l
    if s = chs "insert_small_paragraph()" || s = chs "insert_paragraph()" ||
       s = chs "insert_enter()" then
      if s = chs "insert_paragraph()" || s = chs "insert_enter()" then
        match rest with
        | l2 :: _ =>
          if pyStrip l2 = chs "insert_paragraph()" || pyStrip l2 = chs "insert_enter()" then
            scorePop rest
          else l :: rest
        | [] => l :: rest
      else scorePop rest
    else l :: rest

structure ESRState where
  needExtraBlankLine : Bool
  inLineContent : Bool

def esrLine (st : ESRState) (revOut : List Chars) (line : Chars) :
    ESRState × List Chars :=
  let stripped := pyStrip line
  if stripped = chs "insert_paragraph()" || stripped = chs "insert_enter()" then
    (⟨false, false⟩, line :: revOut)
  else if stripped = chs "insert_small_paragraph()" then
    (⟨false, false⟩, line :: revOut)
  else
    let (st, revOut) :=
      if st.needExtraBlankLine && !stripped.isEmpty then
        (⟨false, st.inLineContent⟩, chs "insert_enter()" :: revOut)
      else (st, revOut)
    match scoreMatch line with
    | some digits =>
      let revOut := scorePop revOut
      let revOut :=
        if !revOut.isEmpty &&
           !(pyStrip revOut.head! = chs "insert_paragraph()" ||
             pyStrip revOut.head! = chs "insert_enter()") then
          chs "insert_enter()" :: revOut
        else revOut
      let prev := match revOut.head? with | some l => pyStrip l | none => []
      let revOut :=
        if prev ≠ chs "set_align_right_next_line()" then
          chs "set_align_right_next_line()" :: revOut
        else revOut
      let revOut := (chs "insert_text('[" ++ digits ++ chs "점]')") :: revOut
      let revOut := chs "insert_enter()" :: revOut
      (⟨true, false⟩, revOut)
    | none =>
      let st := if !stripped.isEmpty then { st with inLineContent := true } else st
      (st, line :: revOut)

def ensure_score_right_align (lines : List Chars) : List Chars :=
  (lines.foldl (fun (acc : ESRState × List Chars) line => esrLine acc.1 acc.2 line)
    (⟨false, false⟩, [])).2.reverse

/-! ## `_sanitize_tabs` (lines 392-413) -/

def sanitize_tabs : List Chars → List Chars
  | [] => []
  | line :: rest =>
    let s := pyStrip line
    if s = chs "insert_text('\\t')" || s = chs "insert_text(\"\\t\")" then
      let after := rest.dropWhile (fun l => (pyStrip l).isEmpty)
      let keep :=
        match after with
        | l2 :: _ => (chs "insert_equation(").isPrefixOf (pyLStrip l2)
        | [] => false
      (if keep then line else chs "insert_space()") :: sanitize_tabs rest
  else line :: sanitize_tabs rest

/-! ## `ScriptRunner.run` — the full normalization stage (lines 1199-1243) -/

def scriptRunnerNormalize (s : Chars) : Chars :=
  let cleaned := pyStrip (dedentPy s)
  let cleaned := crlfNormalize cleaned
  let cleaned := stripCodeFence cleaned
  let cleaned := pyStrip (strip_code_markers cleaned)
  if cleaned.isEmpty then []
  else
    let cleaned := sanitize_multiline_strings cleaned
    let cleaned := normalize_inline_calls cleaned
    let cleaned := sanitize_unterminated_equation_strings cleaned
    let cleaned := normalize_primes_in_equations cleaned
    let expanded := ((repair_multiline_calls (splitNL cleaned)).map split_concat_calls).flatten
    let expanded := promote_math_insert_text_calls expanded
    let expanded := normalize_placeholders expanded
    let expanded := split_dual_content_in_header expanded
    let expanded := normalize_box_paragraphs expanded
    let expanded := normalize_box_template_order expanded
    let expanded := ensure_exit_after_plain_box expanded
    let expanded := drop_enter_after_exit_box expanded
    let expanded := fix_header_view_box_order expanded
    let expanded := normalize_choice_leading_space expanded
    let expanded := drop_unused_choices_placeholder expanded
    let expanded := ensure_score_right_align expanded
    let expanded := sanitize_tabs expanded
    pyStrip (joinNL expanded)

/-- The normalization stage of `ScriptRunner.run` as a text-to-text map. -/
def Normalize (s : String) : String := String.mk (scriptRunnerNormalize s.data)

/-! ## Claims C1-C4: concrete evaluations of the normalization pipeline -/

/-- C1: the spec requires `Normalize (Normalize s) = Normalize s` for every
input.  The code violates it: on the score-only script the score-isolation
pass re-fires on its own output (the right-alignment request it emitted is
not a paragraph break, so the pass inserts a fresh `insert_enter()` and a
second `set_align_right_next_line()`), and the output keeps growing.  This
theorem evaluates the pipeline at the failing input. -/
theorem C1_normalize_not_idempotent :
    Normalize "insert_text('[3점]')" =
      "set_align_right_next_line()\ninsert_text('[3점]')\ninsert_enter()" ∧
    Normalize (Normalize "insert_text('[3점]')") =
      "set_align_right_next_line()\ninsert_enter()\nset_align_right_next_line()\ninsert_text('[3점]')\ninsert_enter()\ninsert_enter()" ∧
    Normalize (Normalize "insert_text('[3점]')") ≠ Normalize "insert_text('[3점]')" := by
  refine ⟨rfl, rfl, ?_⟩
  decide

/-- C2 counterexample: the claim asserts that on
`insert_text('{rm F}^{prime}=ma')` the normalized output canonicalizes the
prime notation to the ASCII apostrophe form.  In fact prime normalization
(`_normalize_primes_in_equations`) runs before math promotion and only
rewrites `insert_equation`/`insert_latex_equation` calls, so the promoted
line keeps the `{prime}` spelling: the output still contains the substring
`{prime}` and its only apostrophes are the two string delimiters. -/
theorem C2_prime_not_canonicalized_cex :
    Normalize "insert_text('\x7brm F\x7d^\x7bprime\x7d=ma')" =
      "insert_equation('\x7brm F\x7d^\x7bprime\x7d=ma')" ∧
    hasSub (chs "\x7bprime\x7d") (Normalize "insert_text('\x7brm F\x7d^\x7bprime\x7d=ma')").data = true ∧
    (Normalize "insert_text('\x7brm F\x7d^\x7bprime\x7d=ma')").data.count '\'' = 2 := by
  refine ⟨rfl, ?_, ?_⟩ <;> decide

/-- C2 (amended): on input `insert_text('{rm F}^{prime}=ma')` the normalized
output replaces the line with an equation-insertion call carrying the same
literal argument; the `{prime}` notation is left unchanged because prime
canonicalization runs before promotion and only over equation calls. -/
theorem C2_math_promotion_amended :
    Normalize "insert_text('\x7brm F\x7d^\x7bprime\x7d=ma')" =
      "insert_equation('\x7brm F\x7d^\x7bprime\x7d=ma')" := rfl

def c3Input : String :=
  "insert_text('start')\n\n\n\ninsert_text('[3점]')\ninsert_text('next')"

def isParagraphBreakLine (l : Chars) : Bool :=
  l = chs "insert_enter()" || l = chs "insert_paragraph()"

/-- Output lines strictly between the score call and the `next` call. -/
def c3BetweenScoreAndNext : List Chars :=
  (((splitNL (Normalize c3Input).data).dropWhile
      (fun l => !(l = chs "insert_text('[3점]')"))).drop 1).takeWhile
    (fun l => !(l = chs "insert_text('next')"))

/-- C3 counterexample: the claim asserts that the normalized output emits
exactly one paragraph-break operation after the score call.  The code emits
two: one ending the score line and one produced by the
`need_extra_blank_line` flag to guarantee the blank separator, so the segment
between the score call and `insert_text('next')` holds two `insert_enter()`
operations. -/
theorem C3_score_isolation_cex :
    c3BetweenScoreAndNext = [chs "insert_enter()", chs "insert_enter()"] ∧
    (c3BetweenScoreAndNext.filter isParagraphBreakLine).length ≠ 1 := by
  refine ⟨rfl, ?_⟩
  decide

/-- C3 (amended): on the blank-lines-then-score-then-next input, the
normalized output carries exactly one paragraph-break operation immediately
before the right-alignment request (the input's blank text lines survive but
are not operations), keeps the score call as a plain text-insertion call, and
emits exactly two paragraph-break operations between the score call and the
following content — one terminating the score line and one producing the
single blank separator — so the line immediately preceding
`insert_text('next')` is that paragraph break. -/
theorem C3_score_isolation_amended :
    Normalize c3Input =
      "insert_text('start')\n\n\n\ninsert_enter()\nset_align_right_next_line()\ninsert_text('[3점]')\ninsert_enter()\ninsert_enter()\ninsert_text('next')" ∧
    (let ls := splitNL (Normalize c3Input).data
     ls.get? 3 = some [] ∧
     ls.get? 4 = some (chs "insert_enter()") ∧
     ls.get? 5 = some (chs "set_align_right_next_line()") ∧
     ls.get? 6 = some (chs "insert_text('[3점]')") ∧
     ls.get? 7 = some (chs "insert_enter()") ∧
     ls.get? 8 = some (chs "insert_enter()") ∧
     ls.get? 9 = some (chs "insert_text('next')") ∧
     ls.length = 10) := by
  exact ⟨rfl, rfl, rfl, rfl, rfl, rfl, rfl, rfl, rfl⟩

def c4Input : String := "insert_text(\"it's\")\ninsert_text('x')"

/-- The quote-balance property claimed for every call line of the normalized
output: an even number of unescaped quote characters, all of one style. -/
def quoteBalancedSingleStyle (line : Chars) : Bool :=
  let cs := countUnescaped '\'' line false
  let cd := countUnescaped '"' line false
  (cs + cd) % 2 = 0 && (cs = 0 || cd = 0)

/-- C4: the spec requires every text/equation-insertion call line of the
normalized output to be balanced and single-style for all inputs.  The code
violates it: a double-quoted argument containing an apostrophe makes
`_repair_multiline_calls` count an odd number of single quotes, buffer the
line and join the following call onto it; the joined output line is a call
line carrying three unescaped single quotes (odd) in mixed styles.  This
theorem evaluates the pipeline at the failing input. -/
theorem C4_quote_balance_violated :
    Normalize c4Input = "insert_text(\"it's\") insert_text('x')" ∧
    (splitNL (Normalize c4Input).data).length = 1 ∧
    hasSub (chs "insert_text(") (Normalize c4Input).data = true ∧
    countUnescaped '\'' (Normalize c4Input).data false = 3 ∧
    quoteBalancedSingleStyle (Normalize c4Input).data = false := by
  refine ⟨rfl, rfl, ?_, rfl, ?_⟩ <;> decide

/-! ## `equation.py` — `latex_to_hwpeqn` (lines 28-54)

The converter's environment (the node CLI file and the subprocess run) is
external; it is modelled by the possible outcomes the source distinguishes
with its `except` clauses.  `FileNotFoundError`, `CalledProcessError` and
`TimeoutExpired` return the original text; any other exception is re-raised
as `LatexConversionError`. -/

inductive SubprocessResult where
  | ok (stdout : String)
  | fileNotFound
  | calledProcessError
  | timeoutExpired
  | otherError (msg : String)
  deriving Repr, DecidableEq

structure EqBridgeEnv where
  cliExists : Bool
  run : SubprocessResult

inductive LatexOutcome where
  | ret (s : String)
  | raisesLatexConversionError (msg : String)
  deriving Repr, DecidableEq

def pyStripS (s : String) : String := String.mk (pyStrip s.data)

def latex_to_hwpeqn (latex : String) (env : EqBridgeEnv) : LatexOutcome :=
  let text := pyStripS latex
  if text = "" then .ret ""
  else if !env.cliExists then .ret latex
  else
    match env.run with
    | .ok stdout =>
      let output := pyStripS stdout
      .ret (if output = "" then latex else output)
    | .fileNotFound => .ret latex
    | .calledProcessError => .ret latex
    | .timeoutExpired => .ret latex
    | .otherError msg => .raisesLatexConversionError msg

/-- C5 counterexample: the claim says the converter returns the original
input text unchanged whenever the converter is missing, the process fails or
the conversion times out.  For the whitespace-only input `" "` with the
converter missing, the blank short-circuit fires first and the function
returns `""`, not the original `" "`. -/
theorem C5_blank_input_cex :
    latex_to_hwpeqn " " ⟨false, .fileNotFound⟩ = .ret "" ∧
    LatexOutcome.ret "" ≠ .ret " " := by
  refine ⟨rfl, ?_⟩
  decide

/-- C5 (amended): for every input whose `strip` is non-blank, when the
converter is missing, the converter process fails, or the conversion times
out, `latex_to_hwpeqn` returns the original input text unchanged and does
not raise; blank inputs return the empty string instead (the blank
short-circuit precedes every converter check). -/
theorem C5_graceful_failure_amended (latex : String) (env : EqBridgeEnv)
    (hne : pyStripS latex ≠ "")
    (hfail : env.cliExists = false ∨ env.run = .fileNotFound ∨
      env.run = .calledProcessError ∨ env.run = .timeoutExpired) :
    latex_to_hwpeqn latex env = .ret latex := by
  unfold latex_to_hwpeqn
  rw [if_neg hne]
  rcases hfail with h | h | h | h
  · simp [h]
  all_goals cases hc : env.cliExists <;> simp [hc, h]

/-- C5 witness: the amended theorem applied at `latex = "x"` with the
converter missing. -/
theorem C5_graceful_failure_witness :
    latex_to_hwpeqn "x" ⟨false, .fileNotFound⟩ = .ret "x" :=
  C5_graceful_failure_amended "x" ⟨false, .fileNotFound⟩ (by decide) (Or.inl rfl)

/-! ## `hwp_controller.py` — composition engine over a primitive trace

The external HWP automation object is modelled by an environment: capability
flags for the `hasattr` probes the source performs, an oracle assigning an
outcome to each primitive document call in issue order, and the cancellation
flag sampled at operation-dispatch indices.  Parameter staging (`GetDefault`,
`setattr`, `SetItem`) is local to the automation object; only the calls that
reach the document (`Execute`, `HAction.Run`, `hwp.Run`, `KeyIndicator`,
`create_table`, `FindCtrl`) are primitives, and each `try` block's
`GetDefault`+staging+`Execute` sequence is modelled as one primitive
consultation carrying the action name. -/

structure HwpState where
  inConditionBox : Bool := false
  boxLineStart : Bool := false
  lineStart : Bool := true
  firstLineWritten : Bool := false
  alignRightNextLine : Bool := false
  lineRightAligned : Bool := false
  alignJustifyNextLine : Bool := false
  lineJustifyAligned : Bool := false
  lastWasEquation : Bool := false
  underlineActive : Bool := false
  boldActive : Bool := false
  deriving Repr, DecidableEq

inductive Prim where
  | hactionRun (name : String)
  | hwpRun (name : String)
  | executeAction (name payload : String)
  | keyIndicator (c : Char)
  | findCtrl
  | createTable (r c : Int)
  deriving Repr, DecidableEq

inductive PrimOutcome where
  | ok
  | fail (cause : String)
  | boolRes (b : Bool)
  deriving Repr, DecidableEq

inductive PyExc where
  | hwpError (msg : String)
  | cancelled
  | rawError (msg : String)
  | eqAutomationError (msg : String)
  | latexConvError (msg : String)
  deriving Repr, DecidableEq

/-- Python `f"{exc}"`. -/
def PyExc.toStr : PyExc → String
  | .hwpError m => m
  | .cancelled => "cancelled"
  | .rawError m => m
  | .eqAutomationError m => m
  | .latexConvError m => m

structure HwpEnv where
  connected : Bool
  oracle : Nat → PrimOutcome
  cancelFlag : Nat → Bool
  hasCreateTable : Bool
  hasHTableCreation : Bool
  hasHParaShape : Bool
  hasFindReplace : Bool
  hasHAction : Bool
  hasFindCtrl : Bool
  hasInsertFileParam : Bool
  hasRatioAttr : Bool
  hasTableCellBorderFill : Bool
  hasCellBorderFill : Bool
  templateExists : String → Bool
  bridge : EqBridgeEnv

structure Mach where
  st : HwpState
  trace : List Prim
  primIdx : Nat
  clock : Nat
  logs : List String
  deriving Repr

/-- State-preserving exception monad: Python exceptions unwind but leave all
already-applied effects (state mutations, issued primitives) in place. -/
def M (α : Type) : Type := Mach → Except PyExc α × Mach

def M.pure {α : Type} (a : α) : M α := fun m => (.ok a, m)

def M.bind {α β : Type} (x : M α) (f : α → M β) : M β := fun m =>
  match x m with
  | (.ok a, m') => f a m'
  | (.error e, m') => (.error e, m')

instance : Monad M where
  pure := M.pure
  bind := M.bind

def M.throw {α : Type} (e : PyExc) : M α := fun m => (.error e, m)

/-- Python `try/except Exception`: the handler observes the exception; state
changes made before the raise are kept. -/
def M.tryCatch {α : Type} (x : M α) (h : PyExc → M α) : M α := fun m =>
  match x m with
  | (.error e, m') => h e m'
  | r => r

/-- Python `try/finally`: the cleanup runs on both paths; an exception from
the cleanup replaces the in-flight result. -/
def M.finallyDo {α : Type} (x : M α) (cleanup : M Unit) : M α := fun m =>
  match x m with
  | (.ok a, m') =>
    (match cleanup m' with
     | (.ok _, m'') => (.ok a, m'')
     | (.error e2, m'') => (.error e2, m''))
  | (.error e, m') =>
    (match cleanup m' with
     | (.ok _, m'') => (.error e, m'')
     | (.error e2, m'') => (.error e2, m''))

def M.getState : M HwpState := fun m => (.ok m.st, m)

def M.modifyState (f : HwpState → HwpState) : M Unit :=
  fun m => (.ok (), { m with st := f m.st })

def M.log (s : String) : M Unit := fun m => (.ok (), { m with logs := m.logs ++ [s] })

/-- Issue one primitive call: record it in the trace and consult the oracle. -/
def M.prim (env : HwpEnv) (p : Prim) : M PrimOutcome := fun m =>
  (.ok (env.oracle m.primIdx), { m with trace := m.trace ++ [p], primIdx := m.primIdx + 1 })

/-- A primitive call whose failure raises the raw external error. -/
def M.callPrim (env : HwpEnv) (p : Prim) : M Unit := do
  match ← M.prim env p with
  | .fail c => M.throw (.rawError c)
  | _ => pure ()

namespace HwpController

/-- `_ensure_connected` (lines 368-371). -/
def ensure_connected (env : HwpEnv) : M Unit :=
  if env.connected then pure ()
  else M.throw (.hwpError "HwpController.connect()를 먼저 호출하세요.")

def keyIndicatorLoop (env : HwpEnv) : List Char → M Unit
  | [] => pure ()
  | c :: rest => do
    M.callPrim env (.keyIndicator c)
    keyIndicatorLoop env rest

/-- `_insert_text_raw` (lines 373-383): `Execute("InsertText")`, falling back
to per-character `KeyIndicator` calls; the fallback loop is not wrapped, so a
failing `KeyIndicator` raises the raw external error. -/
def insert_text_raw (env : HwpEnv) (text : String) : M Unit :=
  if text = "" then pure ()
  else do
    ensure_connected env
    M.tryCatch (M.callPrim env (.executeAction "InsertText" text))
      (fun _ => keyIndicatorLoop env text.data)

def alignActionName (align : String) : String :=
  if align = "right" then "ParagraphShapeAlignRight"
  else if align = "justify" then "ParagraphShapeAlignJustify"
  else "ParagraphShapeAlignLeft"

/-- `_set_paragraph_align` (lines 385-403): `HAction.Run`, then `hwp.Run`,
every failure swallowed. -/
def set_paragraph_align (env : HwpEnv) (align : String) : M Unit :=
  M.tryCatch
    (do ensure_connected env; M.callPrim env (.hactionRun (alignActionName align)))
    (fun _ => M.tryCatch
      (do ensure_connected env; M.callPrim env (.hwpRun (alignActionName align)))
      (fun _ => pure ()))

/-- `set_align_right_next_line` (lines 405-407). -/
def set_align_right_next_line : M Unit :=
  M.modifyState (fun st => { st with alignRightNextLine := true })

/-- `set_align_justify_next_line` (lines 409-411). -/
def set_align_justify_next_line : M Unit :=
  M.modifyState (fun st => { st with alignJustifyNextLine := true })

/-- `_maybe_insert_line_indent` (lines 413-418). -/
def maybe_insert_line_indent (env : HwpEnv) (spaces : Nat) : M Unit := do
  let st ← M.getState
  if st.inConditionBox then pure ()
  else if st.lineStart && st.firstLineWritten then do
    insert_text_raw env (String.mk (List.replicate spaces ' '))
    M.modifyState (fun s => { s with lineStart := false })
  else pure ()

/-- `insert_enter` (lines 570-585). -/
def insert_enter (env : HwpEnv) : M Unit := do
  ensure_connected env
  M.tryCatch
    (do
      M.callPrim env (.hactionRun "BreakPara")
      let st ← M.getState
      if st.inConditionBox then M.modifyState (fun s => { s with boxLineStart := false })
      else pure ()
      M.modifyState (fun s => { s with lineStart := true })
      let st ← M.getState
      if st.lineRightAligned then do
        set_paragraph_align env "left"
        M.modifyState (fun s => { s with lineRightAligned := false })
      else pure ()
      let st ← M.getState
      if st.lineJustifyAligned then do
        set_paragraph_align env "left"
        M.modifyState (fun s => { s with lineJustifyAligned := false })
      else pure ())
    (fun e => M.throw (.hwpError ("단락 나누기 실패: " ++ e.toStr)))

/-- `insert_text` (lines 420-470).  The auto-indent conditional at lines
449-455 has `pass` in both arms and mutates nothing. -/
def insert_text (env : HwpEnv) (text0 : String) : M Unit := do
  if text0 = "" then pure ()
  else do
    let text := if (chs "\\t").isPrefixOf text0.data || (chs "/t").isPrefixOf text0.data
                then String.mk ('\t' :: text0.data.drop 2) else text0
    let st ← M.getState
    if st.lineStart && text.data.head? = some '\t' && st.firstLineWritten then
      insert_enter env
    else pure ()
    let st ← M.getState
    let skipAutoIndentRight := st.lineStart && st.alignRightNextLine
    if st.lineStart && st.alignRightNextLine then do
      set_paragraph_align env "right"
      M.modifyState (fun s => { s with alignRightNextLine := false, lineRightAligned := true })
    else pure ()
    let st ← M.getState
    if st.lineStart && st.alignJustifyNextLine then do
      set_paragraph_align env "justify"
      M.modifyState (fun s => { s with alignJustifyNextLine := false, lineJustifyAligned := true })
    else pure ()
    let st ← M.getState
    if st.lineStart then
      if text.data.head? = some '\t' then M.modifyState (fun s => { s with lineStart := false })
      else if text.data.head? = some ' ' then M.modifyState (fun s => { s with lineStart := false })
      else pure ()
    else pure ()
    let text := if skipAutoIndentRight
                then String.mk (text.data.dropWhile (fun c => c = ' ' || c = '\t')) else text
    let st ← M.getState
    let text := if st.lastWasEquation && text.data.head? = some ' '
                then String.mk (text.data.drop 1) else text
    let st ← M.getState
    let text ← (if st.inConditionBox && st.boxLineStart && !(text.data.head? = some ' ') then do
        M.modifyState (fun s => { s with boxLineStart := false })
        M.pure (String.mk (' ' :: text.data))
      else M.pure text)
    insert_text_raw env text
    M.modifyState (fun s =>
      { s with lineStart := false, lastWasEquation := false, firstLineWritten := true })

/-- `insert_space` (lines 587-588). -/
def insert_space (env : HwpEnv) : M Unit := insert_text env " "

/-- `insert_paragraph` (lines 590-596). -/
def insert_paragraph (env : HwpEnv) : M Unit := do
  insert_enter env
  insert_space env

/-- `insert_small_paragraph` (lines 694-699): deprecated no-op. -/
def insert_small_paragraph : M Unit := M.pure ()

/-- `set_bold` (lines 472-482). -/
def set_bold (env : HwpEnv) (enabled : Bool) : M Unit := do
  ensure_connected env
  M.tryCatch
    (M.callPrim env (.executeAction "CharShape" (if enabled then "Bold=1" else "Bold=0")))
    (fun e => M.throw (.hwpError ("굵게 설정 실패: " ++ e.toStr)))
  M.modifyState (fun s => { s with boldActive := enabled })

/-- `set_underline` (lines 484-499). -/
def set_underline (env : HwpEnv) (enabled? : Option Bool) : M Unit := do
  ensure_connected env
  let st ← M.getState
  let enabled := enabled?.getD (!st.underlineActive)
  M.tryCatch
    (M.callPrim env
      (.executeAction "CharShape" (if enabled then "UnderlineType=1" else "UnderlineType=0")))
    (fun e => M.throw (.hwpError ("밑줄 설정 실패: " ++ e.toStr)))
  M.modifyState (fun s => { s with underlineActive := enabled })

/-- `set_char_width_ratio` (lines 501-526): when no width-ratio attribute
route applies, no primitive is executed and the call returns silently. -/
def set_char_width_ratio' (env : HwpEnv) (percent : Int) : M Unit := do
  ensure_connected env
  M.tryCatch
    (if env.hasRatioAttr then
      M.callPrim env (.executeAction "CharShape" ("Ratio=" ++ toString percent))
     else pure ())
    (fun e => M.throw (.hwpError ("장평 설정 실패: " ++ e.toStr)))

/-- `set_table_border_white` (lines 528-568): the first present candidate
parameter set is executed; a failure is wrapped, no second candidate tried. -/
def set_table_border_white (env : HwpEnv) : M Unit := do
  ensure_connected env
  M.tryCatch
    (if env.hasTableCellBorderFill then
      M.callPrim env (.executeAction "TableCellBorderFill" "BorderColor=white")
     else if env.hasCellBorderFill then
      M.callPrim env (.executeAction "CellBorderFill" "BorderColor=white")
     else pure ())
    (fun e => M.throw (.hwpError ("표 테두리 색상 설정 실패: " ++ e.toStr)))

/-- `_set_font_size_pt` (lines 598-607). -/
def set_font_size_pt (env : HwpEnv) (pt : String) : M Unit := do
  ensure_connected env
  M.tryCatch (M.callPrim env (.executeAction "CharShape" ("Height=" ++ pt)))
    (fun e => M.throw (.hwpError ("폰트 크기 설정 실패: " ++ e.toStr)))

/-- `_set_font_name` (lines 609-645). -/
def set_font_name (env : HwpEnv) (name : String) : M Unit := do
  ensure_connected env
  M.tryCatch (M.callPrim env (.executeAction "CharShape" ("FaceName=" ++ name)))
    (fun e => M.throw (.hwpError ("글꼴 설정 실패: " ++ e.toStr)))

/-- `_apply_compact_paragraph` (lines 647-692): `_ensure_connected` sits
outside the swallowing `try`. -/
def apply_compact_paragraph (env : HwpEnv) : M Unit := do
  ensure_connected env
  M.tryCatch
    (if env.hasHParaShape then M.callPrim env (.executeAction "ParaShape" "compact")
     else pure ())
    (fun _ => pure ())

/-- `_apply_box_text_style` (lines 780-785). -/
def apply_box_text_style (env : HwpEnv) (pt : String) : M Unit :=
  M.tryCatch (do set_font_name env "HyhwpEQ"; set_font_size_pt env pt) (fun _ => pure ())

/-- `_move_to_table_cell` (lines 787-799). -/
def move_to_table_cell (env : HwpEnv) : M Bool := do
  ensure_connected env
  M.tryCatch (do M.callPrim env (.hactionRun "MoveToCell"); M.pure true)
    (fun _ => M.tryCatch (do M.callPrim env (.hwpRun "MoveToCell"); M.pure true)
      (fun _ => M.pure false))

/-- `_insert_box_raw` (lines 761-778). -/
def insert_box_raw (env : HwpEnv) : M Unit := do
  ensure_connected env
  if env.hasCreateTable then M.callPrim env (.createTable 1 1)
  else if env.hasHTableCreation then M.callPrim env (.executeAction "TableCreate" "1x1")
  else M.callPrim env (.executeAction "TableCreate" "1x1 (CreateSet)")

/-- `_run_action_best_effort` (lines 916-927). -/
def run_action_best_effort (env : HwpEnv) (name : String) : M Bool := do
  ensure_connected env
  M.tryCatch (do M.callPrim env (.hactionRun name); M.pure true)
    (fun _ => M.tryCatch (do M.callPrim env (.hwpRun name); M.pure true)
      (fun _ => M.pure false))

/-- `_repeat_find` (lines 929-966): a missing `HAction`/`HParameterSet`/
`HFindReplace` interface raises; an `Execute` failure returns `False`; the
`Execute` result is coerced to a boolean. -/
def repeat_find (env : HwpEnv) (needle : String) : M Bool := do
  if needle = "" then M.pure false
  else do
    ensure_connected env
    if !env.hasFindReplace then
      M.throw (.hwpError "HWP FindReplace 인터페이스를 찾지 못했습니다.")
    else
      M.tryCatch
        (do
          match ← M.prim env (.executeAction "RepeatFind" needle) with
          | .ok => M.pure true
          | .boolRes b => M.pure b
          | .fail c => M.throw (.rawError c))
        (fun _ => M.pure false)

/-- `_move_doc_start` (lines 968-974). -/
def move_doc_start (env : HwpEnv) : M Unit := do
  let ok ← run_action_best_effort env "MoveDocBegin"
  if ok then pure ()
  else do
    let ok2 ← run_action_best_effort env "MoveTop"
    if ok2 then pure ()
    else do
      let _ ← run_action_best_effort env "MoveBegin"
      pure ()

def findFirstCandidate (env : HwpEnv) : List String → M Bool
  | [] => M.pure false
  | n :: rest => do
    let f ← repeat_find env n
    if f then M.pure true else findFirstCandidate env rest

/-- `_cleanup_template_placeholder` (lines 883-896). -/
def cleanup_template_placeholder (env : HwpEnv) (marker : String) : M Unit := do
  move_doc_start env
  let cands := if marker = "&&&" then [marker, "＆＆＆", "& & &", "＆ ＆ ＆"] else [marker]
  let found ← findFirstCandidate env cands
  if found then do
    let _ ← run_action_best_effort env "Delete"
    pure ()
  else pure ()
  move_doc_start env

/-- `_try_insert_template` (lines 801-881).  The attribute loops stage
values on local parameter objects; each document-level insert attempt
(HAction `InsertFile`/`FileInsert` when a parameter set exists, then the
direct-method/`Run` fallbacks) is one primitive consultation, tried in
source order until one succeeds. -/
def try_insert_template (env : HwpEnv) (name : String) : M Bool := do
  if !env.templateExists name then M.pure false
  else do
    ensure_connected env
    let path := "templates/" ++ name
    let attempt : Prim → M Bool := fun p =>
      M.tryCatch (do M.callPrim env p; M.pure true) (fun _ => M.pure false)
    let r ← (if env.hasInsertFileParam then do
        let a ← attempt (.executeAction "InsertFile" path)
        if a then M.pure true else attempt (.executeAction "FileInsert" path)
      else M.pure false)
    if r then M.pure true
    else do
      let a ← attempt (.hwpRun ("InsertFile " ++ path))
      if a then M.pure true
      else attempt (.hwpRun ("FileInsert " ++ path))

def pyLower (s : String) : String := String.mk (s.data.map Char.toLower)

/-- `name.lower().replace("\\", "/").rsplit("/", 1)[-1]` (line 912). -/
def templateBaseName (name : String) : String :=
  let l := (pyLower name).data.map (fun c => if c = '\\' then '/' else c)
  String.mk ((l.reverse.takeWhile (fun c => !(c = '/'))).reverse)

/-- `insert_template` (lines 898-914). -/
def insert_template (env : HwpEnv) (name : String) : M Unit := do
  if name = "" then M.throw (.hwpError "템플릿 이름이 비어있습니다.")
  else do
    let ok ← try_insert_template env name
    if !ok then M.throw (.hwpError ("템플릿을 찾지 못했습니다: templates/" ++ name))
    else do
      let base := templateBaseName name
      if base = "box.hwp" || base = "box_white.hwp" then
        cleanup_template_placeholder env "&&&"
      else pure ()

/-- Marker-deletion tail of `focus_placeholder` (lines 1029-1038). -/
def deleteFound (env : HwpEnv) : M Unit := do
  let d ← run_action_best_effort env "Delete"
  if d then pure ()
  else do
    let d2 ← run_action_best_effort env "DeleteBack"
    if d2 then pure ()
    else M.tryCatch (insert_text_raw env "") (fun _ => pure ())

def fpCandidates (marker : String) : List String :=
  if marker = "@@@" then [marker, "＠＠＠", "@ @ @", "＠ ＠ ＠"]
  else if marker = "###" then [marker, "＃＃＃", "# # #", "＃ ＃ ＃"]
  else if marker = "&&&" then [marker, "＆＆＆", "& & &", "＆ ＆ ＆"]
  else [marker]

/-- `focus_placeholder` (lines 976-1038). -/
def focus_placeholder (env : HwpEnv) (marker : String) : M Unit := do
  let cands := fpCandidates marker
  let found ← findFirstCandidate env cands
  if found then deleteFound env
  else if marker = "&&&" then pure ()
  else do
    move_doc_start env
    let found2 ← findFirstCandidate env cands
    if found2 then deleteFound env
    else do
      let handled ← (if marker = "###" then
          M.tryCatch
            (do
              let mv ← move_to_table_cell env
              if mv then do
                insert_text_raw env marker
                let f ← repeat_find env marker
                if f then do
                  let _ ← run_action_best_effort env "Delete"
                  pure ()
                else pure ()
                M.pure true
              else M.pure false)
            (fun _ => M.pure false)
        else M.pure false)
      if handled then pure ()
      else
        M.tryCatch
          (do
            insert_text_raw env marker
            let f ← repeat_find env marker
            if f then do
              let _ ← run_action_best_effort env "Delete"
              pure ()
            else pure ())
          (fun _ => M.throw (.hwpError ("플레이스홀더를 찾지 못했습니다: " ++ marker)))

/-- `insert_box` (lines 1040-1071). -/
def insert_box (env : HwpEnv) : M Unit :=
  M.tryCatch
    (do
      let tok ← try_insert_template env "box_template_noheader.hwp"
      if tok then do
        let mv ← move_to_table_cell env
        if !mv then do
          insert_box_raw env
          let _ ← move_to_table_cell env
          pure ()
        else pure ()
        M.modifyState (fun s =>
          { s with inConditionBox := true, boxLineStart := true, lineStart := false,
                   firstLineWritten := true })
        apply_box_text_style env "8.0"
        apply_compact_paragraph env
      else do
        let st ← M.getState
        if !(st.alignJustifyNextLine || st.alignRightNextLine) then
          maybe_insert_line_indent env 1
        else pure ()
        insert_box_raw env
        let _ ← move_to_table_cell env
        M.modifyState (fun s =>
          { s with inConditionBox := true, boxLineStart := true, lineStart := false,
                   firstLineWritten := true })
        apply_box_text_style env "8.0"
        apply_compact_paragraph env)
    (fun e => M.throw (.hwpError ("박스 삽입 실패: " ++ e.toStr)))

/-- `insert_view_box` (lines 1073-1132): the raw-table fallback path does not
set `_in_condition_box`, writes the centered `< 보 기 >` header best-effort,
and has no outer wrapping `try`. -/
def insert_view_box (env : HwpEnv) : M Unit := do
  let tok ← try_insert_template env "box_template.hwp"
  if tok then do
    let mv ← move_to_table_cell env
    if !mv then do
      insert_box_raw env
      let _ ← move_to_table_cell env
      pure ()
    else pure ()
    M.modifyState (fun s =>
      { s with inConditionBox := true, boxLineStart := true, lineStart := false,
               firstLineWritten := true })
    apply_box_text_style env "8.0"
    apply_compact_paragraph env
    set_paragraph_align env "justify"
  else do
    let st ← M.getState
    if !(st.alignJustifyNextLine || st.alignRightNextLine) then maybe_insert_line_indent env 1
    else pure ()
    insert_box_raw env
    let _ ← move_to_table_cell env
    M.modifyState (fun s => { s with lineStart := false, firstLineWritten := true })
    M.tryCatch
      (do
        ensure_connected env
        M.tryCatch (M.callPrim env (.hactionRun "ParagraphShapeAlignCenter"))
          (fun _ => M.tryCatch (M.callPrim env (.hwpRun "ParagraphShapeAlignCenter"))
            (fun _ => pure ()))
        apply_box_text_style env "8.0"
        insert_text env "< 보 기 >"
        M.tryCatch (M.callPrim env (.hactionRun "BreakPara")) (fun _ => insert_enter env)
        M.tryCatch (M.callPrim env (.hactionRun "ParagraphShapeAlignLeft"))
          (fun _ => M.tryCatch (M.callPrim env (.hwpRun "ParagraphShapeAlignLeft"))
            (fun _ => pure ())))
      (fun _ => pure ())
    apply_box_text_style env "8.0"
    apply_compact_paragraph env
    set_paragraph_align env "justify"

/-- `insert_equation_control` (equation.py lines 57-101). -/
def insert_equation_control (env : HwpEnv) (hwpeqn : String) (ensureNewline : Bool) : M Unit := do
  let text := pyStripS hwpeqn
  if text = "" then pure ()
  else if !env.hasHAction then
    M.throw (.eqAutomationError "HAction interface is missing on this HWP session.")
  else
    M.tryCatch
      (do
        M.callPrim env (.executeAction "EquationCreate" text)
        if env.hasFindCtrl then M.callPrim env .findCtrl else pure ()
        M.callPrim env (.executeAction "EquationPropertyDialog" text)
        M.callPrim env (.hwpRun "Cancel")
        M.callPrim env (.hactionRun "MoveRight")
        if ensureNewline then M.callPrim env (.hactionRun "BreakPara") else pure ())
      (fun e =>
        match e with
        | .eqAutomationError _ => M.throw e
        | _ => M.throw (.eqAutomationError ("Failed to insert equation: " ++ e.toStr)))

/-- `insert_equation` (lines 701-741). -/
def insert_equation (env : HwpEnv) (hwpeqn : String) : M Unit := do
  let content := hwpeqn
  let st ← M.getState
  let content ← (if st.lineStart && content.data.head? = some '\t' then do
      insert_text env "\t"
      M.pure (String.mk (content.data.dropWhile (fun c => c = '\t')))
    else M.pure content)
  let st ← M.getState
  let skipAutoIndentRight := st.lineStart && st.alignRightNextLine
  if st.lineStart && st.alignRightNextLine then do
    set_paragraph_align env "right"
    M.modifyState (fun s => { s with alignRightNextLine := false, lineRightAligned := true })
  else pure ()
  let st ← M.getState
  if st.lineStart && st.alignJustifyNextLine then do
    set_paragraph_align env "justify"
    M.modifyState (fun s => { s with alignJustifyNextLine := false, lineJustifyAligned := true })
  else pure ()
  if !skipAutoIndentRight then maybe_insert_line_indent env 2 else pure ()
  ensure_connected env
  insert_equation_control env content false
  M.modifyState (fun s =>
    { s with lineStart := false, lastWasEquation := true, firstLineWritten := true })

/-- `insert_latex_equation` (lines 743-759): bridges notation, then inserts;
a `LatexConversionError` from the bridge propagates unwrapped. -/
def insert_latex_equation (env : HwpEnv) (latex : String) : M Unit := do
  let hwpeqn ← (match latex_to_hwpeqn latex env.bridge with
    | .ret s => M.pure s
    | .raisesLatexConversionError m => M.throw (.latexConvError m))
  insert_equation env hwpeqn

/-- `exit_box` (lines 1317-1341): every exit path — the `CloseEx` route, the
`TableLowerCell` route, and the all-failed raising route — clears
`_in_condition_box` and `_box_line_start`; the final raise is wrapped a
second time by the outer handler. -/
def exit_box (env : HwpEnv) : M Unit := do
  ensure_connected env
  M.tryCatch
    (do
      let ok1 ← M.tryCatch
        (do
          M.callPrim env (.hactionRun "CloseEx")
          M.callPrim env (.hactionRun "MoveDown")
          M.modifyState (fun s => { s with inConditionBox := false, boxLineStart := false })
          M.pure true)
        (fun _ => M.pure false)
      if ok1 then pure ()
      else do
        let ok2 ← M.tryCatch
          (do
            M.callPrim env (.hactionRun "TableLowerCell")
            M.callPrim env (.hactionRun "MoveDown")
            M.modifyState (fun s => { s with inConditionBox := false, boxLineStart := false })
            M.pure true)
          (fun _ => M.pure false)
        if ok2 then pure ()
        else do
          M.modifyState (fun s => { s with inConditionBox := false, boxLineStart := false })
          M.throw (.hwpError "박스 종료 실패: 표/박스 이동 실패"))
    (fun e => M.throw (.hwpError ("박스 종료 실패: " ++ e.toStr)))

/-- `exit_table` (lines 1343-1366). -/
def exit_table (env : HwpEnv) : M Unit := do
  ensure_connected env
  M.tryCatch
    (do
      let ok1 ← M.tryCatch
        (do
          M.callPrim env (.hactionRun "CloseEx")
          M.callPrim env (.hactionRun "MoveDown")
          M.pure true)
        (fun _ => M.pure false)
      if ok1 then pure ()
      else do
        let ok2 ← M.tryCatch
          (do
            M.callPrim env (.hactionRun "TableLowerCell")
            M.tryCatch
              (do
                M.callPrim env (.hactionRun "CloseEx")
                M.callPrim env (.hactionRun "MoveDown"))
              (fun _ => pure ())
            M.pure true)
          (fun _ => M.pure false)
        if ok2 then pure ()
        else M.throw (.hwpError "표 종료 실패: 표/박스 이동 실패"))
    (fun e => M.throw (.hwpError ("표 종료 실패: " ++ e.toStr)))

end HwpController

/-! ## `insert_table` (lines 1134-1315) -/

/-- `cell_data`: absent, a flat list of strings (re-chunked into rows), or a
list of rows. -/
inductive CellData where
  | noData
  | flat (cells : List String)
  | grid (rows : List (List String))
  deriving Repr, DecidableEq

/-- `[flat[i:i+cols] for i in range(0, len(flat), cols)]` (lines 1252-1256). -/
def chunkCols (cols : Nat) : Nat → List String → List (List String)
  | _, [] => []
  | 0, l => [l]
  | fuel + 1, l => l.take cols :: chunkCols cols fuel (l.drop cols)

namespace HwpController

/-- `_apply_table_font` (lines 1212-1249): best-effort, swallowed. -/
def apply_table_font (env : HwpEnv) : M Unit :=
  M.tryCatch (M.callPrim env (.executeAction "CharShape" "HyhwpEQ 8pt")) (fun _ => pure ())

/-- The local `_run` cell-navigation helper (lines 1258-1265). -/
def run_cell_nav (env : HwpEnv) (name : String) : M Unit :=
  M.tryCatch (M.callPrim env (.hactionRun name))
    (fun _ => M.tryCatch (M.callPrim env (.hwpRun name)) (fun _ => pure ()))

/-- Per-cell font/alignment/content sequence (lines 1271-1291). -/
def fillCell (env : HwpEnv) (alignCenter : Bool) (value : String) : M Unit := do
  apply_table_font env
  apply_compact_paragraph env
  M.tryCatch (set_font_name env "HyhwpEQ") (fun _ => pure ())
  if alignCenter then run_cell_nav env "ParagraphShapeAlignCenter" else pure ()
  if !(value = "") then
    if (chs "EQ:").isPrefixOf value.data then
      insert_equation env (pyStripS (String.mk (value.data.drop 3)))
    else insert_text env value
  else pure ()

/-- `insert_table` (lines 1134-1315): the geometry guard raises before
`_ensure_connected` and before any primitive; the body creates the table,
zeroes cell margins best-effort, fills cells with navigation, and the
`finally` block leaves the table and restores left alignment when
`exit_after` is set. -/
def insert_table (env : HwpEnv) (rows cols : Int) (cellData : CellData)
    (alignCenter exitAfter : Bool) : M Unit :=
  if rows ≤ 0 || cols ≤ 0 then M.throw (.hwpError "표의 행/열은 1 이상이어야 합니다.")
  else do
    ensure_connected env
    M.finallyDo
      (M.tryCatch
        (do
          let st ← M.getState
          if !(st.alignJustifyNextLine || st.alignRightNextLine) then
            maybe_insert_line_indent env 1
          else pure ()
          if env.hasHTableCreation then
            M.callPrim env (.executeAction "TableCreate" (toString rows ++ "x" ++ toString cols))
          else
            M.callPrim env
              (.executeAction "TableCreate" (toString rows ++ "x" ++ toString cols ++ " (CreateSet)"))
          M.modifyState (fun s => { s with lineStart := false, firstLineWritten := true })
          M.tryCatch
            (do
              (if env.hasTableCellBorderFill then
                M.callPrim env (.executeAction "TableCellBorderFill" "margins=0")
               else pure ())
              (if env.hasCellBorderFill then
                M.callPrim env (.executeAction "CellBorderFill" "margins=0")
               else pure ()))
            (fun _ => pure ())
          let grid : List (List String) :=
            match cellData with
            | .noData => []
            | .flat cells => if cells.isEmpty then [] else chunkCols cols.toNat cells.length cells
            | .grid rows0 => rows0
          if !grid.isEmpty then do
            let maxRows := min rows.toNat grid.length
            (List.range maxRows).forM (fun r => do
              let row := (grid.get? r).getD []
              let maxCols := min cols.toNat row.length
              (List.range maxCols).forM (fun c => do
                fillCell env alignCenter ((row.get? c).getD "")
                if c + 1 < cols.toNat then run_cell_nav env "TableRightCell" else pure ())
              if r + 1 < rows.toNat then do
                run_cell_nav env "TableLowerCell"
                (List.range (cols.toNat - 1)).forM (fun _ => run_cell_nav env "TableLeftCell")
              else pure ())
          else pure ())
        (fun e => M.throw (.hwpError ("표 삽입 실패: " ++ e.toStr))))
      (if exitAfter then do
          M.tryCatch (exit_table env) (fun _ => pure ())
          M.tryCatch (set_paragraph_align env "left") (fun _ => pure ())
          M.modifyState (fun s => { s with lineStart := true })
        else pure ())

end HwpController

/-! ## `ScriptRunner` interpreter tiers (lines 1052-1323)

The primary tier `exec`s the normalized text over an environment of wrapped
controller functions; the Python parser itself is external, so a primary
attempt is modelled by its result: a structural `SyntaxError`, or the ordered
operation invocations the script denotes.  The wrappers and the `except`
ladder of `run`, and the whole fallback scanner, are embedded from source. -/

inductive Op where
  | insert_text (s : String)
  | insert_paragraph
  | insert_enter
  | insert_space
  | insert_small_paragraph
  | insert_equation (s : String)
  | insert_latex_equation (s : String)
  | insert_template (name : String)
  | focus_placeholder (marker : String)
  | insert_box
  | exit_box
  | insert_view_box
  | insert_table (rows cols : Int) (cellData : CellData) (alignCenter exitAfter : Bool)
  | set_bold (b : Bool)
  | set_underline (b : Option Bool)
  | set_char_width_ratio' (n : Int)
  | set_table_border_white
  | set_align_right_next_line
  | set_align_justify_next_line
  deriving Repr, DecidableEq

def ctrlOp (env : HwpEnv) : Op → M Unit
  | .insert_text s => HwpController.insert_text env s
  | .insert_paragraph => HwpController.insert_paragraph env
  | .insert_enter => HwpController.insert_enter env
  | .insert_space => HwpController.insert_space env
  | .insert_small_paragraph => HwpController.insert_small_paragraph
  | .insert_equation s => HwpController.insert_equation env s
  | .insert_latex_equation s => HwpController.insert_latex_equation env s
  | .insert_template n => HwpController.insert_template env n
  | .focus_placeholder m => HwpController.focus_placeholder env m
  | .insert_box => HwpController.insert_box env
  | .exit_box => HwpController.exit_box env
  | .insert_view_box => HwpController.insert_view_box env
  | .insert_table r c cd ac ea => HwpController.insert_table env r c cd ac ea
  | .set_bold b => HwpController.set_bold env b
  | .set_underline b => HwpController.set_underline env b
  | .set_char_width_ratio' n => HwpController.set_char_width_ratio' env n
  | .set_table_border_white => HwpController.set_table_border_white env
  | .set_align_right_next_line => HwpController.set_align_right_next_line
  | .set_align_justify_next_line => HwpController.set_align_justify_next_line

/-- Which env entries are registered through a cancellation wrapper
(`_wrap0`/`_wrap1`/`_wrap_bold`/`_wrap_underline`/`_wrap_table`, run lines
1285-1306).  `set_char_width_ratio` alone is registered bare (line 1302). -/
def opWrapped : Op → Bool
  | .set_char_width_ratio' _ => false
  | _ => true

/-- Dispatch one operation of the primary tier: the wrapper polls the cancel
flag at the current dispatch index, then calls the controller. -/
def dispatchOp (env : HwpEnv) (op : Op) : M Unit := fun m =>
  let t := m.clock
  let m := { m with clock := t + 1 }
  if opWrapped op && env.cancelFlag t then (.error .cancelled, m)
  else ctrlOp env op m

def execOps (env : HwpEnv) : List Op → M Unit
  | [] => pure ()
  | op :: ops => do
    dispatchOp env op
    execOps env ops

/-! ### `_execute_fallback` (lines 1052-1183) -/

def M.pollCancel (env : HwpEnv) : M Unit := fun m =>
  if env.cancelFlag m.clock then (.error .cancelled, m) else (.ok (), m)

def M.tick : M Unit := fun m => (.ok (), { m with clock := m.clock + 1 })

/-- The operation names, sorted by length descending with Python's stable
sort over the source's dictionary order (lines 1080-1087). -/
def fbNames : List String :=
  ["set_align_justify_next_line", "set_align_right_next_line",
   "insert_small_paragraph", "set_table_border_white",
   "insert_latex_equation", "set_char_width_ratio",
   "focus_placeholder", "insert_paragraph",
   "insert_view_box", "insert_equation", "insert_template",
   "set_underline", "insert_enter", "insert_space", "insert_table",
   "insert_text", "insert_box", "set_bold", "exit_box"]

def fbFindName (s : Chars) : Option (String × Chars) :=
  (fbNames.find? (fun n => (chs (n ++ "(")).isPrefixOf s)).map
    (fun n => (n, s.drop (n.length + 1)))

/-- The quote-aware, depth-balanced argument scan (lines 1100-1137); returns
the raw argument text and the remainder after the closing parenthesis. -/
def fbScanArgs : Nat → Chars → Nat → Option Char → Bool → Chars → Chars × Chars
  | 0, s, _, _, _, acc => (acc.reverse, s)
  | _, [], _, _, _, acc => (acc.reverse, [])
  | fuel + 1, c :: rest, depth, quote, esc, acc =>
    if esc then fbScanArgs fuel rest depth quote false (c :: acc)
    else if c = '\\' then fbScanArgs fuel rest depth quote true (c :: acc)
    else
      match quote with
      | some q =>
        if c = q then fbScanArgs fuel rest depth none false (c :: acc)
        else fbScanArgs fuel rest depth quote false (c :: acc)
      | none =>
        if c = '\'' || c = '"' then fbScanArgs fuel rest depth (some c) false (c :: acc)
        else if c = '(' then fbScanArgs fuel rest (depth + 1) none false (c :: acc)
        else if c = ')' then
          if depth = 1 then (acc.reverse, rest)
          else fbScanArgs fuel rest (depth - 1) none false (c :: acc)
        else fbScanArgs fuel rest depth none false (c :: acc)

/-- String-argument extraction for `funcs_one_str` (lines 1145-1154). -/
def fbExtractStr (argStr : String) : String :=
  match argStr.data with
  | q :: rest =>
    if q = '\'' || q = '"' then String.mk (rest.takeWhile (fun c => !(c = q)))
    else argStr
  | [] => argStr

def parseDigits (s : Chars) : Option (Nat × Chars) :=
  let ds := s.takeWhile (fun c => '0' ≤ c && c ≤ '9')
  if ds.isEmpty then none
  else some (ds.foldl (fun acc c => acc * 10 + (c.toNat - 48)) 0, s.drop ds.length)

/-- `int(float(arg_str))` over the decimal forms `[ws][sign]digits[.digits][ws]`
(truncation toward zero); exotic float spellings are outside the modelled
subset and behave as a parse failure, which the source skips silently. -/
def pyFloatToInt (s : String) : Option Int :=
  let t := pyStrip s.data
  let (neg, t) := match t with
    | '-' :: r => (true, r)
    | '+' :: r => (false, r)
    | r => (false, r)
  match parseDigits t with
  | some (n, rest) =>
    let rest := match rest with
      | '.' :: r => r.dropWhile (fun c => '0' ≤ c && c ≤ '9')
      | r => r
    if rest.isEmpty then some (if neg then -(n : Int) else (n : Int)) else none
  | none =>
    match t with
    | '.' :: r =>
      match parseDigits r with
      | some (_, rest) => if rest.isEmpty then some 0 else none
      | none => none
    | _ => none

inductive PyLit where
  | int (n : Int)
  | bool (b : Bool)
  | str (s : String)
  | list (xs : List PyLit)
  deriving Repr

mutual

/-- `ast.literal_eval` over the literal forms the fallback's `insert_table`
arguments use: integers, booleans, string literals and (nested) lists. -/
def parsePyLit : Nat → Chars → Option (PyLit × Chars)
  | 0, _ => none
  | fuel + 1, s =>
    let s := s.dropWhile isPySpace
    match s with
    | [] => none
    | '\'' :: rest => (decodeStrLit '\'' rest).map (fun p => (.str (String.mk p.1), p.2))
    | '"' :: rest => (decodeStrLit '"' rest).map (fun p => (.str (String.mk p.1), p.2))
    | '[' :: rest => (parsePyLitList fuel rest).map (fun p => (.list p.1, p.2))
    | _ =>
      if (chs "True").isPrefixOf s then some (.bool true, s.drop 4)
      else if (chs "False").isPrefixOf s then some (.bool false, s.drop 5)
      else
        let (neg, t) := match s with
          | '-' :: r => (true, r)
          | '+' :: r => (false, r)
          | r => (false, r)
        (parseDigits t).map (fun p => (.int (if neg then -(p.1 : Int) else (p.1 : Int)), p.2))

def parsePyLitList : Nat → Chars → Option (List PyLit × Chars)
  | 0, _ => none
  | fuel + 1, s =>
    let s := s.dropWhile isPySpace
    match s with
    | ']' :: rest => some ([], rest)
    | _ =>
      match parsePyLit fuel s with
      | none => none
      | some (x, rest) =>
        let rest := rest.dropWhile isPySpace
        match rest with
        | ',' :: r2 => (parsePyLitList fuel r2).map (fun p => (x :: p.1, p.2))
        | ']' :: r2 => some ([x], r2)
        | _ => none

end

/-- Python `str(x)` over the literal forms above. -/
def litToDisplay : PyLit → String
  | .int n => toString n
  | .bool b => if b then "True" else "False"
  | .str s => s
  | .list _ => "[...]"

def litToCellData : PyLit → Option CellData
  | .list [] => some (.flat [])
  | .list (x :: xs) =>
    match x with
    | .str _ => some (.flat ((x :: xs).map litToDisplay))
    | .list _ =>
      some (.grid ((x :: xs).map (fun r =>
        match r with
        | .list cells => cells.map litToDisplay
        | other => [litToDisplay other])))
    | _ => some (.flat ((x :: xs).map litToDisplay))
  | _ => none

def isIdentChar (c : Char) : Bool := isWordChar c

/-- Parse the `f(<args>)` argument list of the fallback's `insert_table`
branch: positional literals and `name=literal` keywords, comma-separated. -/
def fbParseCallArgs : Nat → Chars → List PyLit → List (String × PyLit) →
    Option (List PyLit × List (String × PyLit))
  | 0, _, _, _ => none
  | fuel + 1, s, pos, kw =>
    let s := s.dropWhile isPySpace
    if s.isEmpty then some (pos.reverse, kw.reverse)
    else
      let ident := s.takeWhile isIdentChar
      let afterIdent := (s.drop ident.length).dropWhile isPySpace
      let asKw : Option (String × Chars) :=
        if !ident.isEmpty && !(ident = chs "True") && !(ident = chs "False") then
          match afterIdent with
          | '=' :: r => some (String.mk ident, r)
          | _ => none
        else none
      match asKw with
      | some (name, r) =>
        match parsePyLit r.length r with
        | none => none
        | some (v, rest) =>
          let rest := rest.dropWhile isPySpace
          match rest with
          | ',' :: r2 => fbParseCallArgs fuel r2 pos ((name, v) :: kw)
          | [] => some (pos.reverse, ((name, v) :: kw).reverse)
          | _ => none
      | none =>
        match parsePyLit s.length s with
        | none => none
        | some (v, rest) =>
          let rest := rest.dropWhile isPySpace
          match rest with
          | ',' :: r2 => fbParseCallArgs fuel r2 (v :: pos) kw
          | [] => some ((v :: pos).reverse, kw.reverse)
          | _ => none

/-- Assemble the fallback `insert_table` invocation (lines 1171-1181):
two integer positionals and the keyword-only `cell_data` / `align_center` /
`exit_after`; any other shape behaves as the silently-skipped best-effort
parse failure. -/
def fbParseTableArgs (argStr : String) : Option (Int × Int × CellData × Bool × Bool) :=
  match fbParseCallArgs argStr.data.length argStr.data [] [] with
  | none => none
  | some (pos, kw) =>
    match pos with
    | [.int rows, .int cols] =>
      if kw.all (fun p => p.1 = "cell_data" || p.1 = "align_center" || p.1 = "exit_after") then
        let cd := match kw.find? (fun p => p.1 = "cell_data") with
          | some (_, v) => (litToCellData v).getD .noData
          | none => .noData
        let ac := match kw.find? (fun p => p.1 = "align_center") with
          | some (_, .bool b) => b
          | _ => false
        let ea := match kw.find? (fun p => p.1 = "exit_after") with
          | some (_, .bool b) => b
          | _ => true
        some (rows, cols, cd, ac, ea)
      else none
    | _ => none

/-- One fallback dispatch body (lines 1139-1181): the inner cancel check and
the controller call, to be wrapped by the logging `except` of the caller. -/
def fbCall (env : HwpEnv) (matched argStr : String) : M Unit :=
  if matched = "insert_paragraph" then HwpController.insert_paragraph env
  else if matched = "insert_enter" then HwpController.insert_enter env
  else if matched = "insert_space" then HwpController.insert_space env
  else if matched = "insert_box" then HwpController.insert_box env
  else if matched = "exit_box" then HwpController.exit_box env
  else if matched = "insert_view_box" then HwpController.insert_view_box env
  else if matched = "insert_small_paragraph" then HwpController.insert_small_paragraph
  else if matched = "set_align_right_next_line" then HwpController.set_align_right_next_line
  else if matched = "set_align_justify_next_line" then HwpController.set_align_justify_next_line
  else if matched = "set_table_border_white" then HwpController.set_table_border_white env
  else if matched = "insert_text" then HwpController.insert_text env (fbExtractStr argStr)
  else if matched = "insert_equation" then HwpController.insert_equation env (fbExtractStr argStr)
  else if matched = "insert_latex_equation" then
    HwpController.insert_latex_equation env (fbExtractStr argStr)
  else if matched = "insert_template" then HwpController.insert_template env (fbExtractStr argStr)
  else if matched = "focus_placeholder" then
    HwpController.focus_placeholder env (fbExtractStr argStr)
  else if matched = "set_bold" then
    HwpController.set_bold env (hasSub (chs "true") (HwpController.pyLower argStr).data)
  else if matched = "set_underline" then
    (if argStr = "" then HwpController.set_underline env none
     else HwpController.set_underline env
       (some (hasSub (chs "true") (HwpController.pyLower argStr).data)))
  else if matched = "set_char_width_ratio" then
    M.tryCatch
      (match (if argStr = "" then some (0 : Int) else pyFloatToInt argStr) with
       | some v => HwpController.set_char_width_ratio' env v
       | none => pure ())
      (fun _ => pure ())
  else if matched = "insert_table" then
    M.tryCatch
      (match fbParseTableArgs argStr with
       | some (rows, cols, cd, ac, ea) => HwpController.insert_table env rows cols cd ac ea
       | none => pure ())
      (fun _ => pure ())
  else pure ()

/-- One fallback dispatch with its logging `except Exception` (lines
1139-1183); note it also catches and logs a `ScriptCancelled` raised by the
inner check, after which the scan loop's own top-of-loop check trips. -/
def fbDispatch (env : HwpEnv) (matched argStr : String) : M Unit :=
  M.tryCatch
    (do
      M.pollCancel env
      M.tick
      fbCall env matched argStr)
    (fun e => M.log ("[Fallback] " ++ matched ++ " failed: " ++ e.toStr))

/-- The fallback scan loop (lines 1088-1183). -/
def fbGo (env : HwpEnv) : Nat → Chars → M Unit
  | 0, _ => pure ()
  | _, [] => pure ()
  | fuel + 1, s@(_ :: rest) => do
    M.pollCancel env
    match fbFindName s with
    | none => fbGo env fuel rest
    | some (name, afterParen) =>
      let (args, rest2) := fbScanArgs afterParen.length afterParen 1 none false []
      let argStr := String.mk (pyStrip args)
      fbDispatch env name argStr
      fbGo env fuel rest2

/-- `_execute_fallback` (lines 1052-1183), over the whole script text. -/
def execute_fallback (env : HwpEnv) (script : String) : M Unit :=
  fbGo env script.data.length script.data

/-! ### `ScriptRunner.run` — interpret-and-dispatch tail (lines 1245-1323) -/

inductive ParseResult where
  | syntaxError
  | parsed (ops : List Op)

inductive RunOutcome where
  | completed
  | raised (e : PyExc)
  deriving Repr, DecidableEq

structure RunResult where
  outcome : RunOutcome
  mach : Mach
  fallbackScripts : List String

def Mach.init (st : HwpState) : Mach := ⟨st, [], 0, 0, []⟩

/-- Run a controller computation from a fresh machine over the given state;
returns the result, the final state, and the issued primitive trace. -/
def runCtrl {α : Type} (x : M α) (st : HwpState) : Except PyExc α × Mach :=
  x (Mach.init st)

/-- The `try/except` ladder of `run` (lines 1308-1323): a pre-`exec` cancel
check, then the primary attempt; `SyntaxError` routes the whole cleaned text
to `_execute_fallback` exactly once; `ScriptCancelled` re-raises; every other
exception re-raises unmodified. -/
def runScript (env : HwpEnv) (cleaned : String) (parse : ParseResult) (m0 : Mach) : RunResult :=
  if env.cancelFlag m0.clock then ⟨.raised .cancelled, m0, []⟩
  else
    match parse with
    | .syntaxError =>
      match execute_fallback env cleaned m0 with
      | (.ok _, m') => ⟨.completed, m', [cleaned]⟩
      | (.error e, m') => ⟨.raised e, m', [cleaned]⟩
    | .parsed ops =>
      match execOps env ops m0 with
      | (.ok _, m') => ⟨.completed, m', []⟩
      | (.error e, m') => ⟨.raised e, m', []⟩

/-! ## Applied evaluation lemmas for the machine monad -/

@[simp] theorem M.pure_apply {α : Type} (a : α) (m : Mach) : (M.pure a) m = (.ok a, m) := rfl

@[simp] theorem M.bind_apply {α β : Type} (x : M α) (f : α → M β) (m : Mach) :
    M.bind x f m = match x m with
      | (.ok a, m') => f a m'
      | (.error e, m') => (.error e, m') := rfl

@[simp] theorem M.throw_apply {α : Type} (e : PyExc) (m : Mach) :
    (M.throw e : M α) m = (.error e, m) := rfl

@[simp] theorem M.tryCatch_apply {α : Type} (x : M α) (h : PyExc → M α) (m : Mach) :
    M.tryCatch x h m = match x m with
      | (.error e, m') => h e m'
      | r => r := rfl

@[simp] theorem M.finallyDo_apply {α : Type} (x : M α) (cleanup : M Unit) (m : Mach) :
    M.finallyDo x cleanup m = match x m with
      | (.ok a, m') =>
        (match cleanup m' with
         | (.ok _, m'') => (.ok a, m'')
         | (.error e2, m'') => (.error e2, m''))
      | (.error e, m') =>
        (match cleanup m' with
         | (.ok _, m'') => (.error e, m'')
         | (.error e2, m'') => (.error e2, m'')) := rfl

@[simp] theorem M.getState_apply (m : Mach) : M.getState m = (.ok m.st, m) := rfl

@[simp] theorem M.modifyState_apply (f : HwpState → HwpState) (m : Mach) :
    M.modifyState f m = (.ok (), { m with st := f m.st }) := rfl

@[simp] theorem M.log_apply (s : String) (m : Mach) :
    M.log s m = (.ok (), { m with logs := m.logs ++ [s] }) := rfl

@[simp] theorem M.prim_apply (env : HwpEnv) (p : Prim) (m : Mach) :
    M.prim env p m =
      (.ok (env.oracle m.primIdx),
       { m with trace := m.trace ++ [p], primIdx := m.primIdx + 1 }) := rfl

@[simp] theorem M.pollCancel_apply (env : HwpEnv) (m : Mach) :
    M.pollCancel env m =
      (if env.cancelFlag m.clock then (.error .cancelled, m) else (.ok (), m)) := rfl

@[simp] theorem M.tick_apply (m : Mach) : M.tick m = (.ok (), { m with clock := m.clock + 1 }) := rfl

/-- An environment where the session is attached, every primitive succeeds,
every capability probe holds and cancellation never trips. -/
def allOkEnv : HwpEnv where
  connected := true
  oracle := fun _ => .ok
  cancelFlag := fun _ => false
  hasCreateTable := true
  hasHTableCreation := true
  hasHParaShape := true
  hasFindReplace := true
  hasHAction := true
  hasFindCtrl := true
  hasInsertFileParam := true
  hasRatioAttr := true
  hasTableCellBorderFill := true
  hasCellBorderFill := true
  templateExists := fun _ => true
  bridge := ⟨true, .ok "eq"⟩

/-! ## Claims C8-C10: composition-engine operations -/

def alignLeftIssued (tr : List Prim) : Prop :=
  Prim.hactionRun "ParagraphShapeAlignLeft" ∈ tr

def someAlignPrim (p : Prim) : Bool :=
  p = .hactionRun "ParagraphShapeAlignLeft" || p = .hwpRun "ParagraphShapeAlignLeft" ||
    p = .hactionRun "ParagraphShapeAlignRight" || p = .hwpRun "ParagraphShapeAlignRight" ||
    p = .hactionRun "ParagraphShapeAlignJustify" || p = .hwpRun "ParagraphShapeAlignJustify"

set_option maxHeartbeats 3200000 in
/-- C8: after a line-break operation against a responsive target (every
primitive call succeeding) exactly one paragraph-break primitive has been
issued, the line-start flag is set, a consumed one-shot right/justify
alignment has been reverted to left (an align-left primitive issued) with its
line-was-aligned flag cleared, and with neither flag set the trace is the
single paragraph-break primitive (no alignment primitive). -/
theorem C8_insert_enter_postconditions (env : HwpEnv) (st : HwpState)
    (hc : env.connected = true) (ho : env.oracle = fun _ => .ok) :
    (runCtrl (HwpController.insert_enter env) st).1 = .ok () ∧
    (runCtrl (HwpController.insert_enter env) st).2.st.lineStart = true ∧
    (runCtrl (HwpController.insert_enter env) st).2.trace.count (.hactionRun "BreakPara") = 1 ∧
    (st.lineRightAligned = true →
      (runCtrl (HwpController.insert_enter env) st).2.st.lineRightAligned = false ∧
      alignLeftIssued (runCtrl (HwpController.insert_enter env) st).2.trace) ∧
    (st.lineJustifyAligned = true →
      (runCtrl (HwpController.insert_enter env) st).2.st.lineJustifyAligned = false ∧
      alignLeftIssued (runCtrl (HwpController.insert_enter env) st).2.trace) ∧
    (st.lineRightAligned = false → st.lineJustifyAligned = false →
      (runCtrl (HwpController.insert_enter env) st).2.trace = [.hactionRun "BreakPara"]) := by
  unfold runCtrl HwpController.insert_enter
  cases hb : st.inConditionBox <;> cases hr : st.lineRightAligned <;>
    cases hj : st.lineJustifyAligned <;>
  simp [instMonadM, HwpController.ensure_connected, HwpController.set_paragraph_align,
    HwpController.alignActionName, hc, M.callPrim, Mach.init, alignLeftIssued,
    ho, hb, hr, hj]

/-- C8 witness: the postconditions at the all-successful environment from a
state whose line carried a consumed right alignment. -/
theorem C8_insert_enter_witness :
    (runCtrl (HwpController.insert_enter allOkEnv) { lineRightAligned := true }).1 = .ok () ∧
    (runCtrl (HwpController.insert_enter allOkEnv) { lineRightAligned := true }).2.st.lineStart
      = true ∧
    (runCtrl (HwpController.insert_enter allOkEnv)
      { lineRightAligned := true }).2.st.lineRightAligned = false ∧
    alignLeftIssued
      (runCtrl (HwpController.insert_enter allOkEnv) { lineRightAligned := true }).2.trace :=
  have T := C8_insert_enter_postconditions allOkEnv { lineRightAligned := true } rfl rfl
  ⟨T.1, T.2.1, (T.2.2.2.1 rfl).1, (T.2.2.2.1 rfl).2⟩

set_option maxHeartbeats 1600000 in
/-- C9: the close-container operation clears `_in_condition_box` and
`_box_line_start` on every path — including the failure path where both
primitive leave sequences fail and the operation raises a (double-wrapped)
error. -/
theorem C9_exit_box_clears_flags (env : HwpEnv) (st : HwpState)
    (hc : env.connected = true) :
    ((runCtrl (HwpController.exit_box env) st).2.st.inConditionBox = false ∧
     (runCtrl (HwpController.exit_box env) st).2.st.boxLineStart = false) ∧
    (∀ a b, env.oracle 0 = .fail a → env.oracle 1 = .fail b →
      (runCtrl (HwpController.exit_box env) st).1 =
        .error (.hwpError "박스 종료 실패: 박스 종료 실패: 표/박스 이동 실패")) := by
  constructor
  · unfold runCtrl HwpController.exit_box
    cases h0 : env.oracle 0 <;> cases h1 : env.oracle 1 <;> cases h2 : env.oracle 2 <;>
      cases h3 : env.oracle 3 <;>
    simp [instMonadM, HwpController.ensure_connected, hc, M.callPrim, Mach.init,
      h0, h1, h2, h3]
  · intro a b h0 h1
    unfold runCtrl HwpController.exit_box
    simp [instMonadM, HwpController.ensure_connected, hc, M.callPrim, Mach.init,
      PyExc.toStr, h0, h1]

/-- An environment where the session is attached but every primitive fails. -/
def allFailEnv : HwpEnv := { allOkEnv with oracle := fun _ => .fail "boom" }

/-- C9 witness: with every primitive failing, `exit_box` raises the wrapped
error yet leaves both container flags cleared. -/
theorem C9_exit_box_witness :
    (runCtrl (HwpController.exit_box allFailEnv) { inConditionBox := true, boxLineStart := true }).1 =
      .error (.hwpError "박스 종료 실패: 박스 종료 실패: 표/박스 이동 실패") ∧
    (runCtrl (HwpController.exit_box allFailEnv) { inConditionBox := true, boxLineStart := true }).2.st.inConditionBox = false ∧
    (runCtrl (HwpController.exit_box allFailEnv) { inConditionBox := true, boxLineStart := true }).2.st.boxLineStart = false :=
  have T := C9_exit_box_clears_flags allFailEnv
    { inConditionBox := true, boxLineStart := true } rfl
  ⟨T.2 "boom" "boom" rfl rfl, T.1.1, T.1.2⟩

/-- C10: with a non-positive row or column count the insert-table operation
raises the geometry error before `_ensure_connected` and before issuing any
primitive: the result is exactly the error with the initial machine — empty
trace and unchanged composition state. -/
theorem C10_insert_table_guard (env : HwpEnv) (st : HwpState) (rows cols : Int)
    (cd : CellData) (ac ea : Bool) (h : rows ≤ 0 ∨ cols ≤ 0) :
    runCtrl (HwpController.insert_table env rows cols cd ac ea) st =
      (.error (.hwpError "표의 행/열은 1 이상이어야 합니다."), Mach.init st) := by
  unfold runCtrl HwpController.insert_table
  rcases h with h | h <;> simp [h]

/-- C10 witness: `rows = 0` against the all-successful environment leaves the
trace empty and the state untouched. -/
theorem C10_insert_table_guard_witness :
    runCtrl (HwpController.insert_table allOkEnv 0 3 .noData false true) {} =
      (.error (.hwpError "표의 행/열은 1 이상이어야 합니다."), Mach.init {}) :=
  C10_insert_table_guard allOkEnv {} 0 3 .noData false true (Or.inl (by decide))

/-! ## Claims C6-C7: interpreter dispatch, fallback routing, cancellation -/

def PyExc.isHwpError : PyExc → Bool
  | .hwpError _ => true
  | _ => false

def c6RawEnv : HwpEnv := { allOkEnv with oracle := fun _ => .fail "boom" }

/-- C6 counterexample: the claim says every non-structural exception from
primary interpretation propagates as an operation failure carrying the
failing operation's name and cause.  Text insertion's per-character
`KeyIndicator` fallback is unwrapped: when both the `InsertText` execute and
the `KeyIndicator` call fail, the raw external error propagates to the
caller as-is — it is not an operation-failure (`HwpControllerError`) value
and carries no operation name. -/
theorem C6_raw_propagation_cex :
    (runScript c6RawEnv "" (.parsed [.insert_text "a"]) (Mach.init {})).outcome =
      .raised (.rawError "boom") ∧
    PyExc.isHwpError (.rawError "boom") = false ∧
    hasSub (chs "insert_text") (chs (PyExc.toStr (.rawError "boom"))) = false := by
  refine ⟨rfl, rfl, ?_⟩
  decide

set_option maxHeartbeats 800000 in
/-- C6 (amended): when the primary attempt raises a structural parse error
(and the pre-exec cancellation check has not tripped) the fallback
interpreter is invoked exactly once, over the whole normalized script from
its start; a primary attempt that parses never invokes the fallback; every
exception raised during primary interpretation propagates to the caller
unmodified together with all already-applied effects; and for operations
wrapping their primitive failures — here the line-break operation — the
propagated exception is an operation failure whose message carries the
operation description and the underlying cause. -/
theorem C6_fallback_once_and_propagation (env : HwpEnv) (cleaned : String)
    (m0 : Mach) (ops : List Op) :
    (env.cancelFlag m0.clock = false →
      (runScript env cleaned .syntaxError m0).fallbackScripts = [cleaned]) ∧
    (runScript env cleaned (.parsed ops) m0).fallbackScripts = [] ∧
    (∀ e m', execOps env ops m0 = (.error e, m') → env.cancelFlag m0.clock = false →
      (runScript env cleaned (.parsed ops) m0).outcome = .raised e ∧
      (runScript env cleaned (.parsed ops) m0).mach = m') ∧
    (∀ st cause, env.connected = true → env.oracle 0 = .fail cause →
      (runCtrl (HwpController.insert_enter env) st).1 =
        .error (.hwpError ("단락 나누기 실패: " ++ cause))) := by
  refine ⟨?_, ?_, ?_, ?_⟩
  · intro h
    unfold runScript
    rw [h]
    simp only [Bool.false_eq_true, if_false]
    rcases hx : execute_fallback env cleaned m0 with ⟨r, m'⟩
    cases r <;> rfl
  · unfold runScript
    by_cases h : env.cancelFlag m0.clock = true
    · rw [if_pos h]
    · rw [if_neg h]
      show (match execOps env ops m0 with
        | (.ok _, m') => RunResult.mk .completed m' []
        | (.error e, m') => RunResult.mk (.raised e) m' []).fallbackScripts = []
      rcases execOps env ops m0 with ⟨r, m'⟩
      cases r <;> rfl
  · intro e m' hex hflag
    unfold runScript
    rw [hflag]
    simp only [Bool.false_eq_true, if_false, hex]
    exact ⟨trivial, trivial⟩
  · intro st cause hc h0
    unfold runCtrl HwpController.insert_enter
    simp [instMonadM, HwpController.ensure_connected, hc, M.callPrim, Mach.init,
      PyExc.toStr, h0]

/-- C6 witness: a structural failure routes the whole script to the fallback
exactly once, and a failing line break propagates the wrapped operation
failure with description and cause. -/
theorem C6_fallback_once_witness :
    (runScript allOkEnv "insert_enter()" .syntaxError (Mach.init {})).fallbackScripts =
      ["insert_enter()"] ∧
    (runCtrl (HwpController.insert_enter allFailEnv) {}).1 =
      .error (.hwpError "단락 나누기 실패: boom") :=
  have T := C6_fallback_once_and_propagation allOkEnv "insert_enter()" (Mach.init {}) []
  have T2 := C6_fallback_once_and_propagation allFailEnv "x" (Mach.init {}) []
  ⟨T.1 rfl, T2.2.2.2 {} "boom" rfl rfl⟩

def c7CancelEnv : HwpEnv := { allOkEnv with cancelFlag := fun i => decide (1 ≤ i) }

/-- C7: the claim says the cancellation flag is polled before each operation
dispatch and that once it reports cancelled no further primitive is issued
and execution unwinds with the distinct cancellation signal.  The
character-width-ratio operation is registered in the primary environment
without the cancellation wrapper (run, line 1302): with the (monotone) flag
set from dispatch index 1 on, the script still executes the `CharShape`
primitive of the second operation and completes normally, while the same
schedule over a wrapped second operation cancels with exactly the first
operation's effects applied.  This theorem evaluates the code at the failing
input. -/
theorem C7_cancel_not_polled_for_char_width :
    opWrapped (.set_char_width_ratio' 150) = false ∧
    c7CancelEnv.cancelFlag 1 = true ∧
    (runScript c7CancelEnv "" (.parsed [.insert_text "a", .set_char_width_ratio' 150])
      (Mach.init {})).outcome = .completed ∧
    (runScript c7CancelEnv "" (.parsed [.insert_text "a", .set_char_width_ratio' 150])
      (Mach.init {})).mach.trace =
      [.executeAction "InsertText" "a", .executeAction "CharShape" "Ratio=150"] ∧
    (runScript c7CancelEnv "" (.parsed [.insert_text "a", .insert_enter])
      (Mach.init {})).outcome = .raised .cancelled ∧
    (runScript c7CancelEnv "" (.parsed [.insert_text "a", .insert_enter])
      (Mach.init {})).mach.trace = [.executeAction "InsertText" "a"] := by
  exact ⟨rfl, rfl, rfl, rfl, rfl, rfl⟩
